import Mathlib

/-!
Shallow embedding of `main.py` of the gfit-b100 repository.

The script talks to a remote fitness API through a service object.  Every
remote call is modelled as an `Effect` recorded in a trace, and the outcome
of each call (success, or an HTTP error with a status code) is supplied by
an oracle argument, so each Python function becomes a pure Lean function
from its arguments and the oracle to its return value together with the
ordered list of effects it performed.  `print` statements are recorded in
the same trace as structured `Msg` values.  Python `datetime` values are
modelled by their POSIX timestamp as an exact rational number (Python
floats are given exact-real semantics) plus, where the code needs it, their
ISO-format rendering as an abstract string.
-/

namespace GFit

/-- Structured rendering of the messages the script prints; each constructor
corresponds to one `print` site in `main.py`, carrying the data interpolated
into the f-string (HTTP errors are carried as their status code). -/
inductive Msg where
  | dataSourceExists (dataSourceId : String)
  | creatingDataSource (dataSourceId : String)
  | dataSourceCreated
  | errorCreatingDataSource (status : Nat)
  | errorCheckingDataSource (status : Nat)
  | failedActivitySource
  | dataPointsInserted
  | anErrorOccurred (status : Nat)
  | aggregationRequested
  | errorAggregation (status : Nat)
  | sessionCreated
  | errorCreatingSession (status : Nat)
  | cleaningUp
  | deletedSession (sessionId : String)
  | errorDeletingSession (sessionId : String) (status : Nat)
  | noSessionsFound
  | errorListingSessions (status : Nat)
  | deletedDataset (dataSourceId : String)
  | errorDeletingDataset (dataSourceId : String) (status : Nat)
  | noDataSourcesFound
  | errorListingDataSources (status : Nat)
  | cleanupCompleted
  deriving DecidableEq, Repr

/-- One entry of the `field` list of a data-type schema (`main.py` lines 86-106). -/
structure DataTypeField where
  name : String
  format : String
  deriving DecidableEq, Repr

/-- The body of a data-source creation request (`main.py` lines 64-83),
with the nested `application`, `dataType` and `device` dictionaries flattened
into prefixed fields. -/
structure DataSourceBody where
  dataStreamId : String
  dataStreamName : String
  type : String
  applicationName : String
  applicationVersion : String
  dataTypeName : String
  dataTypeFields : List DataTypeField
  deviceUid : String
  deviceType : String
  deviceVersion : String
  deviceModel : String
  deviceManufacturer : String
  deriving DecidableEq, Repr

/-- One entry of the `value` list of a data point: Python uses either the
`intVal` or the `fpVal` key, modelled by two optional fields. -/
structure DataValue where
  intVal : Option ℤ
  fpVal : Option ℚ
  deriving DecidableEq, Repr

/-- A data point of a dataset body (`main.py` lines 166-173). -/
structure DataPoint where
  startTimeNanos : ℤ
  endTimeNanos : ℤ
  dataTypeName : String
  value : List DataValue
  deriving DecidableEq, Repr

/-- The body of a dataset patch request (`main.py` lines 162-174). -/
structure DatasetBody where
  dataSourceId : String
  minStartTimeNs : ℤ
  maxEndTimeNs : ℤ
  point : List DataPoint
  deriving DecidableEq, Repr

/-- The body of a session update request (`main.py` lines 275-285). -/
structure SessionBody where
  id : String
  name : String
  description : String
  startTimeMillis : ℤ
  endTimeMillis : ℤ
  applicationName : String
  activityType : ℤ
  deriving DecidableEq, Repr

/-- The body of an aggregation request (`main.py` lines 250-257). -/
structure AggregateBody where
  aggregateBy : List String
  bucketByTimeDurationMillis : ℤ
  startTimeMillis : ℤ
  endTimeMillis : ℤ
  deriving DecidableEq, Repr

/-- One observable action of the script: a remote API call (one constructor
per call site kind) or a `print` to standard output. -/
inductive Effect where
  | print (m : Msg)
  | dataSourceGet (userId dataSourceId : String)
  | dataSourceCreate (userId : String) (body : DataSourceBody)
  | datasetPatch (userId dataSourceId datasetId : String) (body : DatasetBody)
  | sessionUpdate (userId sessionId : String) (body : SessionBody)
  | aggregate (userId : String) (body : AggregateBody)
  | sessionsList (userId startTime endTime : String)
  | sessionDelete (userId sessionId : String)
  | dataSourcesList (userId : String)
  | datasetDelete (userId dataSourceId datasetId : String)
  deriving DecidableEq, Repr

/-- True for remote API calls, false for prints. -/
def Effect.isRemote : Effect → Bool
  | .print _ => false
  | _ => true

/-- True for the two deletion call kinds. -/
def Effect.isDelete : Effect → Bool
  | .sessionDelete _ _ => true
  | .datasetDelete _ _ _ => true
  | _ => false

/-- True for an aggregation call. -/
def Effect.isAggregateCall : Effect → Bool
  | .aggregate _ _ => true
  | _ => false

/-- True for a print to standard output. -/
def Effect.isPrint : Effect → Bool
  | .print _ => true
  | _ => false

/-- True for an effect that mentions the given data-type name: a get or
create of its data source, a dataset patch carrying a point of that type, or
an aggregation aggregating it. -/
def Effect.mentionsType (t : String) : Effect → Bool
  | .dataSourceGet _ id => (t ++ ":").data <:+: id.data
  | .dataSourceCreate _ b => b.dataTypeName = t
  | .datasetPatch _ _ _ b => b.point.any (fun p => p.dataTypeName = t)
  | .aggregate _ b => b.aggregateBy.contains t
  | _ => false

/-- Truthiness of a Python `Optional[float]`: `None` and `0` are falsy. -/
def ratTruthy : Option ℚ → Bool
  | none => false
  | some c => if c = 0 then false else true

/-- Truthiness of a Python `Optional[int]`: `None` and `0` are falsy. -/
def intTruthy : Option ℤ → Bool
  | none => false
  | some n => if n = 0 then false else true

/-- Truthiness of a Python `Optional[str]`: `None` and the empty string are falsy. -/
def strOptTruthy : Option String → Bool
  | none => false
  | some s => if s = "" then false else true

/-- Python `int()` applied to a real number: truncation toward zero. -/
def pyInt (q : ℚ) : ℤ := if 0 ≤ q then ⌊q⌋ else ⌈q⌉

/-- Python substring test `needle in hay`. -/
def strContains (needle hay : String) : Bool := decide (needle.data <:+: hay.data)

/-- The project number constant of `main.py` line 18. -/
def PROJECT_NUMBER : String := "394921715331"

/-- `get_data_source_id` of `main.py` lines 44-47. -/
def get_data_source_id (data_type_name : String) : String :=
  "derived:" ++ data_type_name ++ ":" ++ PROJECT_NUMBER ++
    ":microcloud:gfit-b100:1000001:" ++ data_type_name

/-- The type-specific field schema assigned at `main.py` lines 86-106:
a field list per recognised data-type name, empty otherwise. -/
def dataSourceFields (data_type_name : String) : List DataTypeField :=
  if data_type_name = "com.google.activity.segment" then
    [{ name := "activity", format := "integer" }]
  else if data_type_name = "com.google.calories.expended" then
    [{ name := "calories", format := "floatPoint" }]
  else if data_type_name = "com.google.step_count.delta" then
    [{ name := "steps", format := "integer" }]
  else []

/-- The data-source creation body built at `main.py` lines 64-106. -/
def mkDataSource (data_type_name application_name : String) : DataSourceBody :=
  { dataStreamId := get_data_source_id data_type_name
    dataStreamName := data_type_name
    type := "derived"
    applicationName := application_name
    applicationVersion := "1.0"
    dataTypeName := data_type_name
    dataTypeFields := dataSourceFields data_type_name
    deviceUid := "1000001"
    deviceType := "unknown"
    deviceVersion := "1.0"
    deviceModel := "gfit-b100"
    deviceManufacturer := "microcloud" }

/-- `create_data_source` of `main.py` lines 49-121.  `getOutcome` and
`createOutcome` are the oracle outcomes of the existence check and of the
creation call: `none` means the call succeeded, `some s` means it raised an
`HttpError` with status `s`.  Returns the Python return value together with
the trace of effects. -/
def create_data_source (data_type_name application_name : String)
    (getOutcome createOutcome : Option Nat) : Option String × List Effect :=
  let data_source_id := get_data_source_id data_type_name
  match getOutcome with
  | none =>
      (some data_source_id,
        [Effect.dataSourceGet "me" data_source_id,
         Effect.print (Msg.dataSourceExists data_source_id)])
  | some status =>
      if status = 404 then
        let data_source := mkDataSource data_type_name application_name
        match createOutcome with
        | none =>
            (some data_source_id,
              [Effect.dataSourceGet "me" data_source_id,
               Effect.print (Msg.creatingDataSource data_source_id),
               Effect.dataSourceCreate "me" data_source,
               Effect.print Msg.dataSourceCreated])
        | some createStatus =>
            (none,
              [Effect.dataSourceGet "me" data_source_id,
               Effect.print (Msg.creatingDataSource data_source_id),
               Effect.dataSourceCreate "me" data_source,
               Effect.print (Msg.errorCreatingDataSource createStatus)])
      else
        (none,
          [Effect.dataSourceGet "me" data_source_id,
           Effect.print (Msg.errorCheckingDataSource status)])

/-- Success condition of `create_data_source`: the existence check succeeds,
or it fails with a 404 and the creation call succeeds. -/
def cdsOk : Option Nat → Option Nat → Bool
  | none, _ => true
  | some s, c => if s = 404 then c.isNone else false

/-- The session body built at `main.py` lines 275-285. -/
def sessionBody (activity_type : ℤ) (start_time end_time : ℚ) : SessionBody :=
  { id := "session-" ++ toString (pyInt (start_time * 1000))
    name := "GFit B100 Session"
    description := "Activity recorded via GFit B100"
    startTimeMillis := pyInt (start_time * 1000)
    endTimeMillis := pyInt (end_time * 1000)
    applicationName := "GFit B100"
    activityType := activity_type }

/-- `log_session` of `main.py` lines 270-297.  `outcome` is the oracle
outcome of the session update call. -/
def log_session (activity_type : ℤ) (start_time end_time : ℚ)
    (outcome : Option Nat) : Bool × List Effect :=
  let start_time_ms := pyInt (start_time * 1000)
  let session : SessionBody := sessionBody activity_type start_time end_time
  match outcome with
  | none =>
      (true, [Effect.sessionUpdate "me" ("session-" ++ toString start_time_ms) session,
              Effect.print Msg.sessionCreated])
  | some status =>
      (false, [Effect.sessionUpdate "me" ("session-" ++ toString start_time_ms) session,
               Effect.print (Msg.errorCreatingSession status)])

/-- The aggregation request body built at `main.py` lines 250-257: a one-day
bucket over `com.google.step_count.delta` for the activity interval. -/
def aggBody (start_time end_time : ℚ) : AggregateBody :=
  { aggregateBy := ["com.google.step_count.delta"]
    bucketByTimeDurationMillis := 86400000
    startTimeMillis := pyInt (start_time * 1000)
    endTimeMillis := pyInt (end_time * 1000) }

/-- `request_data_aggregation` of `main.py` lines 243-268.  `outcome` is the
oracle outcome of the aggregate call. -/
def request_data_aggregation (start_time end_time : ℚ)
    (outcome : Option Nat) : Bool × List Effect :=
  let aggregation_request : AggregateBody := aggBody start_time end_time
  match outcome with
  | none =>
      (true, [Effect.aggregate "me" aggregation_request,
              Effect.print Msg.aggregationRequested])
  | some status =>
      (false, [Effect.aggregate "me" aggregation_request,
               Effect.print (Msg.errorAggregation status)])

/-- Oracle outcomes for the remote calls `log_activity` can make, one field
per call site (`none` = success, `some s` = `HttpError` with status `s`). -/
structure LogOracle where
  activityGet : Option Nat
  activityCreate : Option Nat
  caloriesGet : Option Nat
  caloriesCreate : Option Nat
  stepsGet : Option Nat
  stepsCreate : Option Nat
  patchActivity : Option Nat
  patchCalories : Option Nat
  patchSteps : Option Nat
  sessionUpdate : Option Nat
  aggregateCall : Option Nat

/-- The all-success oracle: every remote call succeeds. -/
def allOk : LogOracle :=
  { activityGet := none, activityCreate := none, caloriesGet := none
    caloriesCreate := none, stepsGet := none, stepsCreate := none
    patchActivity := none, patchCalories := none, patchSteps := none
    sessionUpdate := none, aggregateCall := none }

/-- The condition under which `log_activity` returns `True`: the activity
data source is available, its dataset patch succeeds, and each dataset patch
that is attempted (optional argument truthy and its data source available)
succeeds.  Session and aggregation outcomes do not matter. -/
def logActivitySucceeds (calories : Option ℚ) (steps : Option ℤ)
    (o : LogOracle) : Bool :=
  cdsOk o.activityGet o.activityCreate && o.patchActivity.isNone &&
    (!(ratTruthy calories && cdsOk o.caloriesGet o.caloriesCreate) ||
      o.patchCalories.isNone) &&
    (!(intTruthy steps && cdsOk o.stepsGet o.stepsCreate) ||
      o.patchSteps.isNone)

/-- The dataset id of `main.py` line 158: the nanosecond interval string. -/
def datasetId (start_time end_time : ℚ) : String :=
  toString (pyInt (start_time * 1000000000)) ++ "-" ++
    toString (pyInt (end_time * 1000000000))

/-- The activity-segment dataset body of `main.py` lines 162-174. -/
def activity_segment (activity_type : ℤ) (start_time end_time : ℚ)
    (aid : String) : DatasetBody :=
  { dataSourceId := aid
    minStartTimeNs := pyInt (start_time * 1000000000)
    maxEndTimeNs := pyInt (end_time * 1000000000)
    point := [{ startTimeNanos := pyInt (start_time * 1000000000)
                endTimeNanos := pyInt (end_time * 1000000000)
                dataTypeName := "com.google.activity.segment"
                value := [{ intVal := some activity_type, fpVal := none }] }] }

/-- The calories dataset body of `main.py` lines 186-198. -/
def calories_data (calories : ℚ) (start_time end_time : ℚ)
    (csid : String) : DatasetBody :=
  { dataSourceId := csid
    minStartTimeNs := pyInt (start_time * 1000000000)
    maxEndTimeNs := pyInt (end_time * 1000000000)
    point := [{ startTimeNanos := pyInt (start_time * 1000000000)
                endTimeNanos := pyInt (end_time * 1000000000)
                dataTypeName := "com.google.calories.expended"
                value := [{ intVal := none, fpVal := some calories }] }] }

/-- The steps dataset body of `main.py` lines 209-221. -/
def steps_data (steps : ℤ) (start_time end_time : ℚ)
    (ssid : String) : DatasetBody :=
  { dataSourceId := ssid
    minStartTimeNs := pyInt (start_time * 1000000000)
    maxEndTimeNs := pyInt (end_time * 1000000000)
    point := [{ startTimeNanos := pyInt (start_time * 1000000000)
                endTimeNanos := pyInt (end_time * 1000000000)
                dataTypeName := "com.google.step_count.delta"
                value := [{ intVal := some steps, fpVal := none }] }] }

/-- The body of the `try` block of `log_activity` (`main.py` lines 160-241),
given the three data-source ids computed before it.  Returns the Python
return value and the trace of effects of the block. -/
def logActivityRest (activity_type : ℤ) (start_time end_time : ℚ)
    (calories : Option ℚ) (steps : Option ℤ)
    (aid : String) (calories_source_id steps_source_id : Option String)
    (o : LogOracle) : Bool × List Effect :=
  let dataset_id := datasetId start_time end_time
  let e1 := Effect.datasetPatch "me" aid dataset_id
    (activity_segment activity_type start_time end_time aid)
  match o.patchActivity with
  | some status => (false, [e1, Effect.print (Msg.anErrorOccurred status)])
  | none =>
    let caloriesStep : Option Nat × List Effect :=
      if ratTruthy calories && strOptTruthy calories_source_id then
        let csid := calories_source_id.getD ""
        let body := calories_data (calories.getD 0) start_time end_time csid
        match o.patchCalories with
        | some status =>
            (some status, [Effect.datasetPatch "me" csid dataset_id body,
                           Effect.print (Msg.anErrorOccurred status)])
        | none => (none, [Effect.datasetPatch "me" csid dataset_id body])
      else (none, [])
    match caloriesStep.1 with
    | some _ => (false, e1 :: caloriesStep.2)
    | none =>
      let stepsStep : Option Nat × List Effect :=
        if intTruthy steps && strOptTruthy steps_source_id then
          let ssid := steps_source_id.getD ""
          let body := steps_data (steps.getD 0) start_time end_time ssid
          match o.patchSteps with
          | some status =>
              (some status, [Effect.datasetPatch "me" ssid dataset_id body,
                             Effect.print (Msg.anErrorOccurred status)])
          | none => (none, [Effect.datasetPatch "me" ssid dataset_id body])
        else (none, [])
      match stepsStep.1 with
      | some _ => (false, e1 :: (caloriesStep.2 ++ stepsStep.2))
      | none =>
        let ls := log_session activity_type start_time end_time o.sessionUpdate
        let agg :=
          if intTruthy steps then
            (request_data_aggregation start_time end_time o.aggregateCall).2
          else []
        (true, e1 :: (caloriesStep.2 ++ stepsStep.2 ++ ls.2 ++ agg ++
                      [Effect.print Msg.dataPointsInserted]))

/-- `log_activity` of `main.py` lines 123-241 (the credential acquisition and
service construction, which perform no fitness API calls, are outside the
trace). -/
def log_activity (activity_type : ℤ) (start_time end_time : ℚ)
    (calories : Option ℚ) (steps : Option ℤ) (o : LogOracle) : Bool × List Effect :=
  let acds := create_data_source "com.google.activity.segment" "GFit B100"
    o.activityGet o.activityCreate
  let ccds :=
    if ratTruthy calories then
      create_data_source "com.google.calories.expended" "GFit B100"
        o.caloriesGet o.caloriesCreate
    else (none, [])
  let scds :=
    if intTruthy steps then
      create_data_source "com.google.step_count.delta" "GFit B100"
        o.stepsGet o.stepsCreate
    else (none, [])
  let pre := acds.2 ++ ccds.2 ++ scds.2
  if strOptTruthy acds.1 then
    let r := logActivityRest activity_type start_time end_time calories steps
      (acds.1.getD "") ccds.1 scds.1 o
    (r.1, pre ++ r.2)
  else
    (false, pre ++ [Effect.print Msg.failedActivitySource])

/-- A Python `datetime` value as `clean_up_todays_activities` uses it: its
POSIX timestamp (exact rational seconds) and its `isoformat()` rendering,
kept abstract as a string. -/
structure PyDatetime where
  ts : ℚ
  iso : String

/-- Oracle outcomes for the remote calls of `clean_up_todays_activities`:
the two listing calls either fail with a status, or succeed with `none`
(response dictionary without the respective key) or with the list of session
ids, respectively data-stream ids, of the response; each deletion call has a
per-id outcome. -/
structure CleanupOracle where
  sessionsList : Except Nat (Option (List String))
  sessionDelete : String → Option Nat
  dataSourcesList : Except Nat (Option (List String))
  datasetDelete : String → Option Nat

/-- A concrete cleanup environment in which no session is found and the one
listed data source carries the namespace marker, but its dataset deletion
fails with a 404. -/
def cleanup404Oracle : CleanupOracle :=
  { sessionsList := Except.ok none
    sessionDelete := fun _ => none
    dataSourcesList := Except.ok (some ["derived:394921715331:microcloud:x"])
    datasetDelete := fun _ => some 404 }

/-- The body of the per-session loop of `main.py` lines 328-337. -/
def cleanupSessionStep (o : CleanupOracle) (session_id : String) : List Effect :=
  match o.sessionDelete session_id with
  | none =>
      [Effect.sessionDelete "me" session_id,
       Effect.print (Msg.deletedSession session_id)]
  | some status =>
      [Effect.sessionDelete "me" session_id,
       Effect.print (Msg.errorDeletingSession session_id status)]

/-- The namespace-marker test of `main.py` line 354: the stream id contains
both the project number and the manufacturer string. -/
def nsMarked (data_source_id : String) : Bool :=
  strContains PROJECT_NUMBER data_source_id && strContains "microcloud" data_source_id

/-- The body of the per-data-source loop of `main.py` lines 350-367: the
dataset is deleted only when the stream id contains the project number and
the manufacturer marker, and a 404 from the deletion is silently ignored. -/
def cleanupDatasetStep (o : CleanupOracle) (dataset_id : String)
    (data_source_id : String) : List Effect :=
  if nsMarked data_source_id then
    match o.datasetDelete data_source_id with
    | none =>
        [Effect.datasetDelete "me" data_source_id dataset_id,
         Effect.print (Msg.deletedDataset data_source_id)]
    | some status =>
        if status ≠ 404 then
          [Effect.datasetDelete "me" data_source_id dataset_id,
           Effect.print (Msg.errorDeletingDataset data_source_id status)]
        else
          [Effect.datasetDelete "me" data_source_id dataset_id]
  else []

/-- The dataset id `main.py` line 355 builds from the nanosecond boundaries
of lines 309-310. -/
def cleanupDatasetId (today tomorrow : PyDatetime) : String :=
  toString (pyInt (today.ts * 1000000000)) ++ "-" ++
    toString (pyInt (tomorrow.ts * 1000000000))

/-- `clean_up_todays_activities` of `main.py` lines 299-374.  The current-day
boundary computation (`datetime.now()` truncated to midnight, plus one day)
is an environment input, passed as the two `PyDatetime` values. -/
def clean_up_todays_activities (today tomorrow : PyDatetime)
    (o : CleanupOracle) : Bool × List Effect :=
  let start_time_rfc3339 := today.iso ++ "Z"
  let end_time_rfc3339 := tomorrow.iso ++ "Z"
  let sessionsPart :=
    Effect.sessionsList "me" start_time_rfc3339 end_time_rfc3339 ::
      (match o.sessionsList with
       | Except.error status => [Effect.print (Msg.errorListingSessions status)]
       | Except.ok none => [Effect.print Msg.noSessionsFound]
       | Except.ok (some sessionIds) => sessionIds.flatMap (cleanupSessionStep o))
  let dataset_id := cleanupDatasetId today tomorrow
  let dataSourcesPart :=
    Effect.dataSourcesList "me" ::
      (match o.dataSourcesList with
       | Except.error status => [Effect.print (Msg.errorListingDataSources status)]
       | Except.ok none => [Effect.print Msg.noDataSourcesFound]
       | Except.ok (some streamIds) => streamIds.flatMap (cleanupDatasetStep o dataset_id))
  (true, Effect.print Msg.cleaningUp :: (sessionsPart ++ dataSourcesPart ++
         [Effect.print Msg.cleanupCompleted]))

/-- An OAuth credential object, as far as `main.py` inspects it.  Modelled
from the google-auth collaborator semantics the spec relies on: a credential
is `valid` exactly when it carries a token and is not expired; an absent
refresh token is the empty string (Python falsy). -/
structure Creds where
  token : String
  refresh_token : String
  expired : Bool
  deriving DecidableEq, Repr

/-- Validity of a credential (google-auth: a token is present and not expired). -/
def Creds.valid (c : Creds) : Bool := c.token ≠ "" && !c.expired

/-- Observable actions of `get_credentials`: refreshing the stored token,
running the interactive installed-app flow, and persisting a token to
`token.json`. -/
inductive CredEffect where
  | refresh
  | runFlow
  | saveToken (c : Creds)
  deriving DecidableEq, Repr

/-- Environment of `get_credentials`: the stored `token.json` content (or
`none` when the file does not exist), the collaborator result of refreshing
a credential in place, and the credential produced by the interactive flow. -/
structure AuthEnv where
  stored : Option Creds
  refreshResult : Creds → Creds
  flowResult : Creds

/-- `get_credentials` of `main.py` lines 20-42. -/
def get_credentials (env : AuthEnv) : Creds × List CredEffect :=
  match env.stored with
  | some creds =>
      if creds.valid then (creds, [])
      else if creds.expired && creds.refresh_token ≠ "" then
        let c := env.refreshResult creds
        (c, [CredEffect.refresh, CredEffect.saveToken c])
      else
        let c := env.flowResult
        (c, [CredEffect.runFlow, CredEffect.saveToken c])
  | none =>
      let c := env.flowResult
      (c, [CredEffect.runFlow, CredEffect.saveToken c])

/-! ### Helper lemmas -/

theorem get_data_source_id_ne_empty (n : String) : get_data_source_id n ≠ "" := by
  intro h
  have hd : (get_data_source_id n).data = [] := by rw [h]
  simp only [get_data_source_id, String.data_append, List.append_eq_nil] at hd
  exact absurd hd.1.1.1.1.1 (by decide)

theorem strOptTruthy_some_id (n : String) :
    strOptTruthy (some (get_data_source_id n)) = true := by
  simp only [strOptTruthy]
  rw [if_neg (get_data_source_id_ne_empty n)]

theorem cds_fst (n a : String) (g c : Option Nat) :
    (create_data_source n a g c).1 =
      if cdsOk g c then some (get_data_source_id n) else none := by
  rcases g with _ | s
  · simp [create_data_source, cdsOk]
  · rcases c with _ | e <;> by_cases h : s = 404 <;>
      simp [create_data_source, cdsOk, h]

theorem strOptTruthy_cds (n a : String) (g c : Option Nat) :
    strOptTruthy (create_data_source n a g c).1 = cdsOk g c := by
  rw [cds_fst]
  by_cases h : cdsOk g c = true
  · rw [h, if_pos rfl]; exact strOptTruthy_some_id n
  · simp only [Bool.not_eq_true] at h
    rw [h]; simp [strOptTruthy]

theorem datasetDelete_not_mem_sessionStep (o : CleanupOracle) (x u s d : String) :
    Effect.datasetDelete u s d ∉ cleanupSessionStep o x := by
  cases h : o.sessionDelete x <;> simp [cleanupSessionStep, h]

theorem sessionDelete_mem_sessionStep (o : CleanupOracle) (x : String) :
    Effect.sessionDelete "me" x ∈ cleanupSessionStep o x := by
  cases h : o.sessionDelete x <;> simp [cleanupSessionStep, h]

theorem print_errorDeletingSession_mem_sessionStep (o : CleanupOracle)
    (x sid : String) (st : Nat) :
    Effect.print (Msg.errorDeletingSession sid st) ∈ cleanupSessionStep o x ↔
      sid = x ∧ o.sessionDelete x = some st := by
  cases h : o.sessionDelete x <;> simp [cleanupSessionStep, h] <;> tauto

theorem print_errorDeletingDataset_not_mem_sessionStep (o : CleanupOracle)
    (x sid : String) (st : Nat) :
    Effect.print (Msg.errorDeletingDataset sid st) ∉ cleanupSessionStep o x := by
  cases h : o.sessionDelete x <;> simp [cleanupSessionStep, h]

theorem datasetDelete_mem_datasetStep (o : CleanupOracle) (did x u s d : String) :
    Effect.datasetDelete u s d ∈ cleanupDatasetStep o did x ↔
      u = "me" ∧ s = x ∧ d = did ∧ nsMarked x = true := by
  cases hm : nsMarked x
  · simp [cleanupDatasetStep, hm]
  · cases h : o.datasetDelete x with
    | none => simp [cleanupDatasetStep, hm, h]
    | some st => by_cases h4 : st ≠ 404 <;> simp [cleanupDatasetStep, hm, h, h4]

theorem print_errorDeletingDataset_mem_datasetStep (o : CleanupOracle)
    (did x sid : String) (st : Nat) :
    Effect.print (Msg.errorDeletingDataset sid st) ∈ cleanupDatasetStep o did x ↔
      sid = x ∧ nsMarked x = true ∧ o.datasetDelete x = some st ∧ st ≠ 404 := by
  cases hm : nsMarked x
  · simp [cleanupDatasetStep, hm]
  · cases h : o.datasetDelete x with
    | none => simp [cleanupDatasetStep, hm, h]
    | some s0 =>
        by_cases h4 : s0 ≠ 404 <;> simp [cleanupDatasetStep, hm, h, h4] <;> aesop

theorem print_errorDeletingSession_not_mem_datasetStep (o : CleanupOracle)
    (did x sid : String) (st : Nat) :
    Effect.print (Msg.errorDeletingSession sid st) ∉ cleanupDatasetStep o did x := by
  cases hm : nsMarked x
  · simp [cleanupDatasetStep, hm]
  · cases h : o.datasetDelete x with
    | none => simp [cleanupDatasetStep, hm, h]
    | some s0 => by_cases h4 : s0 ≠ 404 <;> simp [cleanupDatasetStep, hm, h, h4]

/-- Membership in the cleanup trace, unfolded into its parts. -/
theorem mem_cleanup (today tomorrow : PyDatetime) (o : CleanupOracle) (e : Effect) :
    e ∈ (clean_up_todays_activities today tomorrow o).2 ↔
      e = Effect.print Msg.cleaningUp ∨
      e = Effect.sessionsList "me" (today.iso ++ "Z") (tomorrow.iso ++ "Z") ∨
      e = Effect.dataSourcesList "me" ∨
      e = Effect.print Msg.cleanupCompleted ∨
      (∃ s, o.sessionsList = Except.error s ∧ e = Effect.print (Msg.errorListingSessions s)) ∨
      (o.sessionsList = Except.ok none ∧ e = Effect.print Msg.noSessionsFound) ∨
      (∃ ids, o.sessionsList = Except.ok (some ids) ∧
        ∃ x ∈ ids, e ∈ cleanupSessionStep o x) ∨
      (∃ s, o.dataSourcesList = Except.error s ∧
        e = Effect.print (Msg.errorListingDataSources s)) ∨
      (o.dataSourcesList = Except.ok none ∧ e = Effect.print Msg.noDataSourcesFound) ∨
      (∃ ids, o.dataSourcesList = Except.ok (some ids) ∧
        ∃ x ∈ ids, e ∈ cleanupDatasetStep o (cleanupDatasetId today tomorrow) x) := by
  rcases hs : o.sessionsList with s | ids
  · rcases hd : o.dataSourcesList with t | jds
    · simp [clean_up_todays_activities, hs, hd, List.mem_flatMap, or_assoc]; aesop
    · rcases jds with _ | jds <;>
        (simp [clean_up_todays_activities, hs, hd, List.mem_flatMap, or_assoc]; aesop)
  · rcases ids with _ | ids
    · rcases hd : o.dataSourcesList with t | jds
      · simp [clean_up_todays_activities, hs, hd, List.mem_flatMap, or_assoc]; aesop
      · rcases jds with _ | jds <;>
          (simp [clean_up_todays_activities, hs, hd, List.mem_flatMap, or_assoc]; aesop)
    · rcases hd : o.dataSourcesList with t | jds
      · simp [clean_up_todays_activities, hs, hd, List.mem_flatMap, or_assoc]; aesop
      · rcases jds with _ | jds <;>
          (simp [clean_up_todays_activities, hs, hd, List.mem_flatMap, or_assoc]; aesop)

theorem print_deletedDataset_not_mem_sessionStep (o : CleanupOracle)
    (x sid : String) :
    Effect.print (Msg.deletedDataset sid) ∉ cleanupSessionStep o x := by
  cases h : o.sessionDelete x <;> simp [cleanupSessionStep, h]

theorem print_deletedDataset_mem_datasetStep (o : CleanupOracle)
    (did x sid : String) :
    Effect.print (Msg.deletedDataset sid) ∈ cleanupDatasetStep o did x ↔
      sid = x ∧ nsMarked x = true ∧ o.datasetDelete x = none := by
  cases hm : nsMarked x
  · simp [cleanupDatasetStep, hm]
  · cases h : o.datasetDelete x with
    | none => simp [cleanupDatasetStep, hm, h]
    | some s0 =>
        by_cases h4 : s0 ≠ 404 <;> simp [cleanupDatasetStep, hm, h, h4]

/-- A 404 dataset-deletion error never produces an error print: the only
print site for dataset-deletion errors is guarded by `status != 404`
(`main.py` lines 364-367). -/
theorem errorDeletingDataset404_not_mem_cleanup (today tomorrow : PyDatetime)
    (o : CleanupOracle) (sid : String) :
    Effect.print (Msg.errorDeletingDataset sid 404) ∉
      (clean_up_todays_activities today tomorrow o).2 := by
  intro hmem
  rw [mem_cleanup] at hmem
  rcases hmem with h1 | h1 | h1 | h1 | ⟨s, _, h1⟩ | ⟨_, h1⟩ | ⟨ids, _, x, _, h1⟩ |
    ⟨s, _, h1⟩ | ⟨_, h1⟩ | ⟨ids, hids, x, hx, h1⟩
  · simp at h1
  · simp at h1
  · simp at h1
  · simp at h1
  · simp at h1
  · simp at h1
  · exact absurd h1 (print_errorDeletingDataset_not_mem_sessionStep o x sid 404)
  · simp at h1
  · simp at h1
  · rw [print_errorDeletingDataset_mem_datasetStep] at h1
    exact h1.2.2.2 rfl

theorem cds_no_agg (n a : String) (g c : Option Nat) (u : String) (b : AggregateBody) :
    Effect.aggregate u b ∉ (create_data_source n a g c).2 := by
  rcases g with _ | s
  · simp [create_data_source]
  · by_cases h : s = 404
    · rcases c with _ | e <;> simp [create_data_source, h]
    · simp [create_data_source, h]

theorem cds_countP_delete (n a : String) (g c : Option Nat) :
    (create_data_source n a g c).2.countP Effect.isDelete = 0 := by
  rcases g with _ | s
  · simp [create_data_source, List.countP_cons, Effect.isDelete]
  · by_cases h : s = 404
    · rcases c with _ | e <;>
        simp [create_data_source, h, List.countP_cons, Effect.isDelete]
    · simp [create_data_source, h, List.countP_cons, Effect.isDelete]

theorem cds_countP_remote_le (n a : String) (g c : Option Nat) :
    (create_data_source n a g c).2.countP Effect.isRemote ≤ 2 := by
  rcases g with _ | s
  · simp [create_data_source, List.countP_cons, Effect.isRemote]
  · by_cases h : s = 404
    · rcases c with _ | e <;>
        simp [create_data_source, h, List.countP_cons, Effect.isRemote]
    · simp [create_data_source, h, List.countP_cons, Effect.isRemote]

theorem errorChecking_mem_cds (n a : String) (c : Option Nat) (v : Nat)
    (hne : v ≠ 404) :
    Effect.print (Msg.errorCheckingDataSource v) ∈
      (create_data_source n a (some v) c).2 := by
  simp [create_data_source, hne]

theorem errorCreating_mem_cds (n a : String) (v : Nat) :
    Effect.print (Msg.errorCreatingDataSource v) ∈
      (create_data_source n a (some 404) (some v)).2 := by
  simp [create_data_source]

theorem ls_fst (aT : ℤ) (s e : ℚ) (out : Option Nat) :
    (log_session aT s e out).1 = out.isNone := by
  cases out <;> simp [log_session]

theorem sessionUpdate_mem_ls (aT : ℤ) (s e : ℚ) (out : Option Nat) :
    Effect.sessionUpdate "me" ("session-" ++ toString (pyInt (s * 1000)))
      (sessionBody aT s e) ∈ (log_session aT s e out).2 := by
  cases out <;> simp [log_session]

theorem errorCreatingSession_mem_ls (aT : ℤ) (s e : ℚ) (v : Nat) :
    Effect.print (Msg.errorCreatingSession v) ∈ (log_session aT s e (some v)).2 := by
  simp [log_session]

theorem agg_not_mem_ls (aT : ℤ) (s e : ℚ) (out : Option Nat)
    (u : String) (b : AggregateBody) :
    Effect.aggregate u b ∉ (log_session aT s e out).2 := by
  cases out <;> simp [log_session]

theorem ls_countP_delete (aT : ℤ) (s e : ℚ) (out : Option Nat) :
    (log_session aT s e out).2.countP Effect.isDelete = 0 := by
  cases out <;> simp [log_session, List.countP_cons, Effect.isDelete]

theorem ls_countP_remote (aT : ℤ) (s e : ℚ) (out : Option Nat) :
    (log_session aT s e out).2.countP Effect.isRemote = 1 := by
  cases out <;> simp [log_session, List.countP_cons, Effect.isRemote]

theorem rda_fst (s e : ℚ) (out : Option Nat) :
    (request_data_aggregation s e out).1 = out.isNone := by
  cases out <;> simp [request_data_aggregation]

theorem agg_mem_rda_iff (s e : ℚ) (out : Option Nat) (u : String) (b : AggregateBody) :
    Effect.aggregate u b ∈ (request_data_aggregation s e out).2 ↔
      u = "me" ∧ b = aggBody s e := by
  cases out <;> simp [request_data_aggregation] <;> aesop

theorem errorAggregation_mem_rda (s e : ℚ) (v : Nat) :
    Effect.print (Msg.errorAggregation v) ∈ (request_data_aggregation s e (some v)).2 := by
  simp [request_data_aggregation]

theorem rda_countP_delete (s e : ℚ) (out : Option Nat) :
    (request_data_aggregation s e out).2.countP Effect.isDelete = 0 := by
  cases out <;> simp [request_data_aggregation, List.countP_cons, Effect.isDelete]

theorem rda_countP_remote (s e : ℚ) (out : Option Nat) :
    (request_data_aggregation s e out).2.countP Effect.isRemote = 1 := by
  cases out <;> simp [request_data_aggregation, List.countP_cons, Effect.isRemote]

theorem logActivityRest_fst (aT : ℤ) (s e : ℚ) (cal : Option ℚ) (st : Option ℤ)
    (aid : String) (cs ss : Option String) (o : LogOracle) :
    (logActivityRest aT s e cal st aid cs ss o).1 =
      (o.patchActivity.isNone &&
       (!(ratTruthy cal && strOptTruthy cs) || o.patchCalories.isNone) &&
       (!(intTruthy st && strOptTruthy ss) || o.patchSteps.isNone)) := by
  cases hpa : o.patchActivity with
  | some v => simp [logActivityRest, hpa]
  | none =>
    cases hcc : (ratTruthy cal && strOptTruthy cs) with
    | false =>
      cases hsc : (intTruthy st && strOptTruthy ss) with
      | false => simp [logActivityRest, hpa, hcc, hsc]
      | true =>
        cases hps : o.patchSteps with
        | some v => simp [logActivityRest, hpa, hcc, hsc, hps]
        | none => simp [logActivityRest, hpa, hcc, hsc, hps]
    | true =>
      cases hpc : o.patchCalories with
      | some v => simp [logActivityRest, hpa, hcc, hpc]
      | none =>
        cases hsc : (intTruthy st && strOptTruthy ss) with
        | false => simp [logActivityRest, hpa, hcc, hpc, hsc]
        | true =>
          cases hps : o.patchSteps with
          | some v => simp [logActivityRest, hpa, hcc, hpc, hsc, hps]
          | none => simp [logActivityRest, hpa, hcc, hpc, hsc, hps]

theorem agg_mem_rest_iff (aT : ℤ) (s e : ℚ) (cal : Option ℚ) (st : Option ℤ)
    (aid : String) (cs ss : Option String) (o : LogOracle)
    (u : String) (b : AggregateBody) :
    Effect.aggregate u b ∈ (logActivityRest aT s e cal st aid cs ss o).2 ↔
      (u = "me" ∧ b = aggBody s e ∧ intTruthy st = true ∧
        (logActivityRest aT s e cal st aid cs ss o).1 = true) := by
  cases hpa : o.patchActivity with
  | some v => simp [logActivityRest, hpa]
  | none =>
    cases hrc : ratTruthy cal <;>
      cases hcs : strOptTruthy cs <;>
      cases hpc : o.patchCalories <;>
      cases hst : intTruthy st <;>
      cases hss : strOptTruthy ss <;>
      cases hps : o.patchSteps <;>
      simp [logActivityRest, hpa, hrc, hcs, hpc, hst, hss, hps, List.mem_append,
        agg_not_mem_ls, agg_mem_rda_iff] <;>
      (try tauto) <;> (try aesop)

theorem rest_countP_delete (aT : ℤ) (s e : ℚ) (cal : Option ℚ) (st : Option ℤ)
    (aid : String) (cs ss : Option String) (o : LogOracle) :
    (logActivityRest aT s e cal st aid cs ss o).2.countP Effect.isDelete = 0 := by
  cases hpa : o.patchActivity with
  | some v => simp [logActivityRest, hpa, List.countP_cons, Effect.isDelete]
  | none =>
    cases hrc : ratTruthy cal <;>
      cases hcs : strOptTruthy cs <;>
      cases hpc : o.patchCalories <;>
      cases hst : intTruthy st <;>
      cases hss : strOptTruthy ss <;>
      cases hps : o.patchSteps <;>
      simp [logActivityRest, hpa, hrc, hcs, hpc, hst, hss, hps, List.countP_append,
        List.countP_cons, Effect.isDelete, ls_countP_delete, rda_countP_delete]

theorem rest_countP_remote_le (aT : ℤ) (s e : ℚ) (cal : Option ℚ) (st : Option ℤ)
    (aid : String) (cs ss : Option String) (o : LogOracle) :
    (logActivityRest aT s e cal st aid cs ss o).2.countP Effect.isRemote ≤ 5 := by
  cases hpa : o.patchActivity with
  | some v => simp [logActivityRest, hpa, List.countP_cons, Effect.isRemote]
  | none =>
    cases hrc : ratTruthy cal <;>
      cases hcs : strOptTruthy cs <;>
      cases hpc : o.patchCalories <;>
      cases hst : intTruthy st <;>
      cases hss : strOptTruthy ss <;>
      cases hps : o.patchSteps <;>
      simp [logActivityRest, hpa, hrc, hcs, hpc, hst, hss, hps, List.countP_append,
        List.countP_cons, Effect.isRemote, ls_countP_remote, rda_countP_remote]

theorem anError_mem_rest (aT : ℤ) (s e : ℚ) (cal : Option ℚ) (st : Option ℤ)
    (aid : String) (cs ss : Option String) (o : LogOracle) (v : Nat)
    (hpa : o.patchActivity = some v) :
    Effect.print (Msg.anErrorOccurred v) ∈
      (logActivityRest aT s e cal st aid cs ss o).2 := by
  simp [logActivityRest, hpa]

theorem activityPatch_mem_rest (aT : ℤ) (s e : ℚ) (cal : Option ℚ) (st : Option ℤ)
    (aid : String) (cs ss : Option String) (o : LogOracle) :
    Effect.datasetPatch "me" aid (datasetId s e) (activity_segment aT s e aid) ∈
      (logActivityRest aT s e cal st aid cs ss o).2 := by
  cases hpa : o.patchActivity with
  | some v => simp [logActivityRest, hpa]
  | none =>
    cases hrc : ratTruthy cal <;>
      cases hcs : strOptTruthy cs <;>
      cases hpc : o.patchCalories <;>
      cases hst : intTruthy st <;>
      cases hss : strOptTruthy ss <;>
      cases hps : o.patchSteps <;>
      simp [logActivityRest, hpa, hrc, hcs, hpc, hst, hss, hps, List.mem_append]

theorem errorCreatingSession_mem_rest (aT : ℤ) (s e : ℚ) (cal : Option ℚ)
    (st : Option ℤ) (aid : String) (cs ss : Option String) (o : LogOracle) (v : Nat)
    (h1 : (logActivityRest aT s e cal st aid cs ss o).1 = true)
    (hsu : o.sessionUpdate = some v) :
    Effect.print (Msg.errorCreatingSession v) ∈
      (logActivityRest aT s e cal st aid cs ss o).2 := by
  cases hpa : o.patchActivity with
  | some v2 => rw [logActivityRest_fst, hpa] at h1; simp at h1
  | none =>
    cases hrc : ratTruthy cal <;>
      cases hcs : strOptTruthy cs <;>
      cases hpc : o.patchCalories <;>
      cases hst : intTruthy st <;>
      cases hss : strOptTruthy ss <;>
      cases hps : o.patchSteps <;>
      rw [logActivityRest_fst, hpa, hrc, hcs, hpc, hst, hss, hps] at h1 <;>
      simp at h1 <;>
      simp [logActivityRest, hpa, hrc, hcs, hpc, hst, hss, hps, hsu,
        List.mem_append, errorCreatingSession_mem_ls]

theorem sessionUpdate_mem_rest (aT : ℤ) (s e : ℚ) (cal : Option ℚ)
    (st : Option ℤ) (aid : String) (cs ss : Option String) (o : LogOracle)
    (h1 : (logActivityRest aT s e cal st aid cs ss o).1 = true) :
    Effect.sessionUpdate "me" ("session-" ++ toString (pyInt (s * 1000)))
      (sessionBody aT s e) ∈ (logActivityRest aT s e cal st aid cs ss o).2 := by
  cases hpa : o.patchActivity with
  | some v2 => rw [logActivityRest_fst, hpa] at h1; simp at h1
  | none =>
    cases hrc : ratTruthy cal <;>
      cases hcs : strOptTruthy cs <;>
      cases hpc : o.patchCalories <;>
      cases hst : intTruthy st <;>
      cases hss : strOptTruthy ss <;>
      cases hps : o.patchSteps <;>
      rw [logActivityRest_fst, hpa, hrc, hcs, hpc, hst, hss, hps] at h1 <;>
      simp at h1 <;>
      simp [logActivityRest, hpa, hrc, hcs, hpc, hst, hss, hps,
        List.mem_append, sessionUpdate_mem_ls]

theorem caloriesPatchError_mem_rest (aT : ℤ) (s e : ℚ) (cal : Option ℚ)
    (st : Option ℤ) (aid : String) (cs ss : Option String) (o : LogOracle) (v : Nat)
    (hpa : o.patchActivity = none)
    (hcond : (ratTruthy cal && strOptTruthy cs) = true)
    (hpc : o.patchCalories = some v) :
    Effect.print (Msg.anErrorOccurred v) ∈
      (logActivityRest aT s e cal st aid cs ss o).2 := by
  simp [logActivityRest, hpa, hcond, hpc]

theorem stepsPatchError_mem_rest (aT : ℤ) (s e : ℚ) (cal : Option ℚ)
    (st : Option ℤ) (aid : String) (cs ss : Option String) (o : LogOracle) (v : Nat)
    (hpa : o.patchActivity = none)
    (hcal : (ratTruthy cal && strOptTruthy cs) = true → o.patchCalories = none)
    (hcond : (intTruthy st && strOptTruthy ss) = true)
    (hps : o.patchSteps = some v) :
    Effect.print (Msg.anErrorOccurred v) ∈
      (logActivityRest aT s e cal st aid cs ss o).2 := by
  cases hcc : (ratTruthy cal && strOptTruthy cs)
  · simp [logActivityRest, hpa, hcc, hcond, hps]
  · simp [logActivityRest, hpa, hcc, hcal hcc, hcond, hps]

theorem errorAggregation_mem_rest (aT : ℤ) (s e : ℚ) (cal : Option ℚ)
    (st : Option ℤ) (aid : String) (cs ss : Option String) (o : LogOracle) (v : Nat)
    (h1 : (logActivityRest aT s e cal st aid cs ss o).1 = true)
    (hst : intTruthy st = true)
    (hagg : o.aggregateCall = some v) :
    Effect.print (Msg.errorAggregation v) ∈
      (logActivityRest aT s e cal st aid cs ss o).2 := by
  cases hpa : o.patchActivity with
  | some v2 => rw [logActivityRest_fst, hpa] at h1; simp at h1
  | none =>
    cases hrc : ratTruthy cal <;>
      cases hcs : strOptTruthy cs <;>
      cases hpc : o.patchCalories <;>
      cases hss : strOptTruthy ss <;>
      cases hps : o.patchSteps <;>
      rw [logActivityRest_fst, hpa, hrc, hcs, hpc, hst, hss, hps] at h1 <;>
      simp at h1 <;>
      simp [logActivityRest, hpa, hrc, hcs, hpc, hst, hss, hps, hagg,
        List.mem_append, errorAggregation_mem_rda]

theorem rest_zero (aT : ℤ) (s e : ℚ) (aid : String) (cs ss : Option String)
    (o : LogOracle) :
    logActivityRest aT s e (some 0) (some 0) aid cs ss o =
      logActivityRest aT s e none none aid cs ss o := by
  have h1 : ratTruthy (some 0) = false := by decide
  have h2 : intTruthy (some 0) = false := by decide
  cases hpa : o.patchActivity <;>
    simp [logActivityRest, hpa, h1, h2, ratTruthy, intTruthy]

theorem rest_none_mentions (aT : ℤ) (s e : ℚ) (aid : String)
    (cs ss : Option String) (o : LogOracle) :
    ∀ x ∈ (logActivityRest aT s e none none aid cs ss o).2,
      x.mentionsType "com.google.calories.expended" = false ∧
      x.mentionsType "com.google.step_count.delta" = false ∧
      x.isAggregateCall = false := by
  cases hpa : o.patchActivity <;> cases hsu : o.sessionUpdate <;>
    simp [logActivityRest, hpa, hsu, log_session, ratTruthy, intTruthy,
      Effect.mentionsType, Effect.isAggregateCall, activity_segment,
      List.mem_append] <;>
    decide

theorem strOptTruthy_ite_id (n : String) (b : Bool) :
    strOptTruthy (if b = true then some (get_data_source_id n) else none) = b := by
  cases b
  · simp [strOptTruthy]
  · simpa using strOptTruthy_some_id n

/-- The trace of `log_activity`, decomposed into the provisioning prefix and
the `try`-block trace (or the failure print). -/
theorem log_activity_trace (aT : ℤ) (s e : ℚ) (cal : Option ℚ) (st : Option ℤ)
    (o : LogOracle) :
    (log_activity aT s e cal st o).2 =
      (create_data_source "com.google.activity.segment" "GFit B100"
          o.activityGet o.activityCreate).2 ++
      (if ratTruthy cal = true then
        (create_data_source "com.google.calories.expended" "GFit B100"
          o.caloriesGet o.caloriesCreate).2 else []) ++
      (if intTruthy st = true then
        (create_data_source "com.google.step_count.delta" "GFit B100"
          o.stepsGet o.stepsCreate).2 else []) ++
      (if cdsOk o.activityGet o.activityCreate = true then
        (logActivityRest aT s e cal st
          (get_data_source_id "com.google.activity.segment")
          (if ratTruthy cal = true then
            (create_data_source "com.google.calories.expended" "GFit B100"
              o.caloriesGet o.caloriesCreate).1 else none)
          (if intTruthy st = true then
            (create_data_source "com.google.step_count.delta" "GFit B100"
              o.stepsGet o.stepsCreate).1 else none) o).2
       else [Effect.print Msg.failedActivitySource]) := by
  cases hA : cdsOk o.activityGet o.activityCreate <;>
    cases hrc : ratTruthy cal <;> cases hst : intTruthy st <;>
    simp [log_activity, strOptTruthy_cds, hA, hrc, hst, cds_fst,
      strOptTruthy_ite_id, strOptTruthy, get_data_source_id_ne_empty,
      List.append_assoc]

theorem log_activity_fst (aT : ℤ) (s e : ℚ) (cal : Option ℚ) (st : Option ℤ)
    (o : LogOracle) :
    (log_activity aT s e cal st o).1 = logActivitySucceeds cal st o := by
  cases hA : cdsOk o.activityGet o.activityCreate with
  | false => simp [log_activity, strOptTruthy_cds, hA, logActivitySucceeds]
  | true =>
    cases hrc : ratTruthy cal <;> cases hst : intTruthy st <;>
      simp [log_activity, strOptTruthy_cds, hA, hrc, hst, logActivitySucceeds,
        logActivityRest_fst, cds_fst, strOptTruthy_ite_id, strOptTruthy_some_id,
        get_data_source_id_ne_empty]

theorem log_activity_fst_eq_rest (aT : ℤ) (s e : ℚ) (cal : Option ℚ)
    (st : Option ℤ) (o : LogOracle)
    (hA : cdsOk o.activityGet o.activityCreate = true) :
    (log_activity aT s e cal st o).1 =
      (logActivityRest aT s e cal st
        (get_data_source_id "com.google.activity.segment")
        (if ratTruthy cal = true then
          (create_data_source "com.google.calories.expended" "GFit B100"
            o.caloriesGet o.caloriesCreate).1 else none)
        (if intTruthy st = true then
          (create_data_source "com.google.step_count.delta" "GFit B100"
            o.stepsGet o.stepsCreate).1 else none) o).1 := by
  cases hrc : ratTruthy cal <;> cases hst : intTruthy st <;>
    simp [log_activity, strOptTruthy_cds, hA, hrc, hst, cds_fst,
      strOptTruthy_some_id, get_data_source_id_ne_empty]

theorem agg_mem_log_iff (aT : ℤ) (s e : ℚ) (cal : Option ℚ) (st : Option ℤ)
    (o : LogOracle) (u : String) (b : AggregateBody) :
    Effect.aggregate u b ∈ (log_activity aT s e cal st o).2 ↔
      (u = "me" ∧ b = aggBody s e ∧ intTruthy st = true ∧
        logActivitySucceeds cal st o = true) := by
  have hfst := log_activity_fst aT s e cal st o
  rw [log_activity_trace]
  cases hA : cdsOk o.activityGet o.activityCreate with
  | false =>
    have hs : logActivitySucceeds cal st o = false := by
      unfold logActivitySucceeds; rw [hA]; simp
    cases hrc : ratTruthy cal <;> cases hst : intTruthy st <;>
      simp [hA, hrc, hst, hs, List.mem_append, cds_no_agg]
  | true =>
    have heq := log_activity_fst_eq_rest aT s e cal st o hA
    rw [hfst] at heq
    cases hrc : ratTruthy cal <;> cases hst : intTruthy st <;>
      (simp only [hrc, hst, Bool.false_eq_true, if_false, if_true] at heq
       simp [hA, hrc, hst, List.mem_append, cds_no_agg, agg_mem_rest_iff,
         ← heq]) <;> tauto

theorem log_countP_delete (aT : ℤ) (s e : ℚ) (cal : Option ℚ) (st : Option ℤ)
    (o : LogOracle) :
    (log_activity aT s e cal st o).2.countP Effect.isDelete = 0 := by
  rw [log_activity_trace]
  cases hA : cdsOk o.activityGet o.activityCreate <;>
    cases hrc : ratTruthy cal <;> cases hst : intTruthy st <;>
    simp [hA, hrc, hst, List.countP_append, List.countP_cons, Effect.isDelete,
      cds_countP_delete, rest_countP_delete]

theorem log_countP_remote_le (aT : ℤ) (s e : ℚ) (cal : Option ℚ) (st : Option ℤ)
    (o : LogOracle) :
    (log_activity aT s e cal st o).2.countP Effect.isRemote ≤ 11 := by
  rw [log_activity_trace]
  rw [List.countP_append, List.countP_append, List.countP_append]
  have h1 := cds_countP_remote_le "com.google.activity.segment" "GFit B100"
    o.activityGet o.activityCreate
  have h2 : (if ratTruthy cal = true then
      (create_data_source "com.google.calories.expended" "GFit B100"
        o.caloriesGet o.caloriesCreate).2 else []).countP Effect.isRemote ≤ 2 := by
    cases hrc : ratTruthy cal
    · simp
    · simpa using cds_countP_remote_le "com.google.calories.expended" "GFit B100"
        o.caloriesGet o.caloriesCreate
  have h3 : (if intTruthy st = true then
      (create_data_source "com.google.step_count.delta" "GFit B100"
        o.stepsGet o.stepsCreate).2 else []).countP Effect.isRemote ≤ 2 := by
    cases hst : intTruthy st
    · simp
    · simpa using cds_countP_remote_le "com.google.step_count.delta" "GFit B100"
        o.stepsGet o.stepsCreate
  have h4 : (if cdsOk o.activityGet o.activityCreate = true then
      (logActivityRest aT s e cal st
        (get_data_source_id "com.google.activity.segment")
        (if ratTruthy cal = true then
          (create_data_source "com.google.calories.expended" "GFit B100"
            o.caloriesGet o.caloriesCreate).1 else none)
        (if intTruthy st = true then
          (create_data_source "com.google.step_count.delta" "GFit B100"
            o.stepsGet o.stepsCreate).1 else none) o).2
      else [Effect.print Msg.failedActivitySource]).countP Effect.isRemote ≤ 5 := by
    cases hA : cdsOk o.activityGet o.activityCreate
    · simp [List.countP_cons, Effect.isRemote]
    · simpa using rest_countP_remote_le aT s e cal st
        (get_data_source_id "com.google.activity.segment")
        (if ratTruthy cal = true then
          (create_data_source "com.google.calories.expended" "GFit B100"
            o.caloriesGet o.caloriesCreate).1 else none)
        (if intTruthy st = true then
          (create_data_source "com.google.step_count.delta" "GFit B100"
            o.stepsGet o.stepsCreate).1 else none) o
  omega

theorem anError_mem_log (aT : ℤ) (s e : ℚ) (cal : Option ℚ) (st : Option ℤ)
    (o : LogOracle) (v : Nat)
    (hA : cdsOk o.activityGet o.activityCreate = true)
    (hpa : o.patchActivity = some v) :
    Effect.print (Msg.anErrorOccurred v) ∈ (log_activity aT s e cal st o).2 := by
  rw [log_activity_trace]
  simp only [hA, if_pos rfl, List.mem_append]
  exact Or.inr (anError_mem_rest aT s e cal st _ _ _ o v hpa)

theorem patchActivity_some_fst_false (aT : ℤ) (s e : ℚ) (cal : Option ℚ)
    (st : Option ℤ) (o : LogOracle) (v : Nat) (hpa : o.patchActivity = some v) :
    (log_activity aT s e cal st o).1 = false := by
  rw [log_activity_fst]
  unfold logActivitySucceeds
  simp [hpa]

theorem cdsFail_fst_false (aT : ℤ) (s e : ℚ) (cal : Option ℚ)
    (st : Option ℤ) (o : LogOracle)
    (hA : cdsOk o.activityGet o.activityCreate = false) :
    (log_activity aT s e cal st o).1 = false := by
  rw [log_activity_fst]
  unfold logActivitySucceeds
  simp [hA]

theorem session_effects_mem_log (aT : ℤ) (s e : ℚ) (cal : Option ℚ)
    (st : Option ℤ) (o : LogOracle)
    (h1 : (log_activity aT s e cal st o).1 = true) :
    Effect.sessionUpdate "me" ("session-" ++ toString (pyInt (s * 1000)))
      (sessionBody aT s e) ∈ (log_activity aT s e cal st o).2 ∧
    (∀ v, o.sessionUpdate = some v →
      Effect.print (Msg.errorCreatingSession v) ∈ (log_activity aT s e cal st o).2) := by
  have hA : cdsOk o.activityGet o.activityCreate = true := by
    by_contra hc
    rw [Bool.not_eq_true] at hc
    rw [cdsFail_fst_false aT s e cal st o hc] at h1
    exact absurd h1 (by simp)
  have hr1 := (log_activity_fst_eq_rest aT s e cal st o hA).symm.trans h1
  constructor
  · rw [log_activity_trace]
    simp only [hA, if_pos rfl, List.mem_append]
    exact Or.inr (sessionUpdate_mem_rest aT s e cal st _ _ _ o hr1)
  · intro v hsu
    rw [log_activity_trace]
    simp only [hA, if_pos rfl, List.mem_append]
    exact Or.inr (errorCreatingSession_mem_rest aT s e cal st _ _ _ o v hr1 hsu)

theorem activityPatch_mem_log (aT : ℤ) (s e : ℚ) (cal : Option ℚ)
    (st : Option ℤ) (o : LogOracle)
    (hA : cdsOk o.activityGet o.activityCreate = true) :
    Effect.datasetPatch "me" (get_data_source_id "com.google.activity.segment")
      (datasetId s e)
      (activity_segment aT s e (get_data_source_id "com.google.activity.segment")) ∈
      (log_activity aT s e cal st o).2 := by
  rw [log_activity_trace]
  simp only [hA, if_pos rfl, List.mem_append]
  exact Or.inr (activityPatch_mem_rest aT s e cal st _ _ _ o)

theorem truthy_and_ite_cds (b : Bool) (n a : String) (g c : Option Nat) :
    (b && strOptTruthy
      (if b = true then (create_data_source n a g c).1 else none)) =
      (b && cdsOk g c) := by
  cases b
  · simp [strOptTruthy]
  · simp [strOptTruthy_cds]

theorem mem_log_of_mem_acds (aT : ℤ) (s e : ℚ) (cal : Option ℚ) (st : Option ℤ)
    (o : LogOracle) (x : Effect)
    (hx : x ∈ (create_data_source "com.google.activity.segment" "GFit B100"
      o.activityGet o.activityCreate).2) :
    x ∈ (log_activity aT s e cal st o).2 := by
  rw [log_activity_trace]
  exact List.mem_append_left _ (List.mem_append_left _ (List.mem_append_left _ hx))

theorem mem_log_of_mem_ccds (aT : ℤ) (s e : ℚ) (cal : Option ℚ) (st : Option ℤ)
    (o : LogOracle) (x : Effect) (hrc : ratTruthy cal = true)
    (hx : x ∈ (create_data_source "com.google.calories.expended" "GFit B100"
      o.caloriesGet o.caloriesCreate).2) :
    x ∈ (log_activity aT s e cal st o).2 := by
  rw [log_activity_trace]
  refine List.mem_append_left _ (List.mem_append_left _ (List.mem_append_right _ ?_))
  simpa [hrc] using hx

theorem mem_log_of_mem_scds (aT : ℤ) (s e : ℚ) (cal : Option ℚ) (st : Option ℤ)
    (o : LogOracle) (x : Effect) (hst : intTruthy st = true)
    (hx : x ∈ (create_data_source "com.google.step_count.delta" "GFit B100"
      o.stepsGet o.stepsCreate).2) :
    x ∈ (log_activity aT s e cal st o).2 := by
  rw [log_activity_trace]
  refine List.mem_append_left _ (List.mem_append_right _ ?_)
  simpa [hst] using hx

theorem caloriesPatch_some_fst_false (aT : ℤ) (s e : ℚ) (cal : Option ℚ)
    (st : Option ℤ) (o : LogOracle) (v : Nat)
    (hrc : ratTruthy cal = true)
    (hC : cdsOk o.caloriesGet o.caloriesCreate = true)
    (hpc : o.patchCalories = some v) :
    (log_activity aT s e cal st o).1 = false := by
  rw [log_activity_fst]
  unfold logActivitySucceeds
  simp [hrc, hC, hpc]

theorem stepsPatch_some_fst_false (aT : ℤ) (s e : ℚ) (cal : Option ℚ)
    (st : Option ℤ) (o : LogOracle) (v : Nat)
    (hst : intTruthy st = true)
    (hS : cdsOk o.stepsGet o.stepsCreate = true)
    (hps : o.patchSteps = some v) :
    (log_activity aT s e cal st o).1 = false := by
  rw [log_activity_fst]
  unfold logActivitySucceeds
  simp [hst, hS, hps]

theorem caloriesPatchError_mem_log (aT : ℤ) (s e : ℚ) (cal : Option ℚ)
    (st : Option ℤ) (o : LogOracle) (v : Nat)
    (hA : cdsOk o.activityGet o.activityCreate = true)
    (hrc : ratTruthy cal = true)
    (hC : cdsOk o.caloriesGet o.caloriesCreate = true)
    (hpa : o.patchActivity = none)
    (hpc : o.patchCalories = some v) :
    Effect.print (Msg.anErrorOccurred v) ∈ (log_activity aT s e cal st o).2 := by
  rw [log_activity_trace]
  simp only [hA, if_pos rfl, List.mem_append]
  refine Or.inr (caloriesPatchError_mem_rest aT s e cal st _ _ _ o v hpa ?_ hpc)
  rw [truthy_and_ite_cds]
  simp [hrc, hC]

theorem stepsPatchError_mem_log (aT : ℤ) (s e : ℚ) (cal : Option ℚ)
    (st : Option ℤ) (o : LogOracle) (v : Nat)
    (hA : cdsOk o.activityGet o.activityCreate = true)
    (hst : intTruthy st = true)
    (hS : cdsOk o.stepsGet o.stepsCreate = true)
    (hpa : o.patchActivity = none)
    (hcal : (ratTruthy cal && cdsOk o.caloriesGet o.caloriesCreate) = true →
      o.patchCalories = none)
    (hps : o.patchSteps = some v) :
    Effect.print (Msg.anErrorOccurred v) ∈ (log_activity aT s e cal st o).2 := by
  rw [log_activity_trace]
  simp only [hA, if_pos rfl, List.mem_append]
  refine Or.inr (stepsPatchError_mem_rest aT s e cal st _ _ _ o v hpa ?_ ?_ hps)
  · intro h
    rw [truthy_and_ite_cds] at h
    exact hcal h
  · rw [truthy_and_ite_cds]
    simp [hst, hS]

theorem aggregationError_mem_log (aT : ℤ) (s e : ℚ) (cal : Option ℚ)
    (st : Option ℤ) (o : LogOracle) (v : Nat)
    (h1 : (log_activity aT s e cal st o).1 = true)
    (hst : intTruthy st = true)
    (hagg : o.aggregateCall = some v) :
    Effect.print (Msg.errorAggregation v) ∈ (log_activity aT s e cal st o).2 := by
  have hA : cdsOk o.activityGet o.activityCreate = true := by
    by_contra hc
    rw [Bool.not_eq_true] at hc
    rw [cdsFail_fst_false aT s e cal st o hc] at h1
    exact absurd h1 (by simp)
  have hr1 := (log_activity_fst_eq_rest aT s e cal st o hA).symm.trans h1
  rw [log_activity_trace]
  simp only [hA, if_pos rfl, List.mem_append]
  exact Or.inr (errorAggregation_mem_rest aT s e cal st _ _ _ o v hr1 hst hagg)

set_option maxRecDepth 4096 in
theorem cds_activity_mentions (g c : Option Nat) :
    ∀ x ∈ (create_data_source "com.google.activity.segment" "GFit B100" g c).2,
      x.mentionsType "com.google.calories.expended" = false ∧
      x.mentionsType "com.google.step_count.delta" = false ∧
      x.isAggregateCall = false := by
  rcases g with _ | s
  · simp [create_data_source, Effect.mentionsType, Effect.isAggregateCall,
      get_data_source_id, PROJECT_NUMBER] <;> decide
  · by_cases h : s = 404
    · rcases c with _ | e <;>
        simp [create_data_source, h, Effect.mentionsType, Effect.isAggregateCall,
          mkDataSource, dataSourceFields, get_data_source_id, PROJECT_NUMBER] <;>
        decide
    · simp [create_data_source, h, Effect.mentionsType, Effect.isAggregateCall,
        get_data_source_id, PROJECT_NUMBER] <;> decide

theorem log_none_mentions (aT : ℤ) (s e : ℚ) (o : LogOracle) :
    ∀ x ∈ (log_activity aT s e none none o).2,
      x.mentionsType "com.google.calories.expended" = false ∧
      x.mentionsType "com.google.step_count.delta" = false ∧
      x.isAggregateCall = false := by
  rw [log_activity_trace]
  intro x hx
  rw [show ratTruthy none = false from rfl, show intTruthy none = false from rfl] at hx
  simp only [Bool.false_eq_true, if_false, List.append_nil, List.mem_append] at hx
  rcases hx with hx | hx
  · exact cds_activity_mentions o.activityGet o.activityCreate x hx
  · cases hA : cdsOk o.activityGet o.activityCreate
    · rw [hA] at hx
      simp only [Bool.false_eq_true, if_false, List.mem_singleton] at hx
      subst hx
      exact ⟨rfl, rfl, rfl⟩
    · rw [hA] at hx
      simp only [if_pos rfl, if_true] at hx
      exact rest_none_mentions aT s e _ _ _ o x hx

theorem cleanup_datasetDelete_characterization (today tomorrow : PyDatetime)
    (o : CleanupOracle) (streamIds : List String)
    (h : o.dataSourcesList = Except.ok (some streamIds))
    (u sid did : String)
    (hmem : Effect.datasetDelete u sid did ∈
      (clean_up_todays_activities today tomorrow o).2) :
    u = "me" ∧ sid ∈ streamIds ∧ did = cleanupDatasetId today tomorrow ∧
      nsMarked sid = true := by
  rw [mem_cleanup] at hmem
  rcases hmem with h1 | h1 | h1 | h1 | ⟨s, _, h1⟩ | ⟨_, h1⟩ | ⟨ids, _, x, _, h1⟩ |
    ⟨s, _, h1⟩ | ⟨_, h1⟩ | ⟨ids, hids, x, hx, h1⟩
  · simp at h1
  · simp at h1
  · simp at h1
  · simp at h1
  · simp at h1
  · simp at h1
  · exact absurd h1 (datasetDelete_not_mem_sessionStep o x u sid did)
  · simp at h1
  · simp at h1
  · rw [h] at hids
    obtain rfl : streamIds = ids := by simpa using hids
    rw [datasetDelete_mem_datasetStep] at h1
    obtain ⟨hu, hsx, hdid, hmk⟩ := h1
    subst hsx
    exact ⟨hu, hx, hdid, hmk⟩

/-- C2: during cleanup, for every data source returned by the listing, the
dataset-delete call for the current-day dataset is issued exactly when the
stream id contains both the project number and the substring microcloud, and
dataset-delete calls are issued only for listed stream ids satisfying that
marker. -/
theorem c2_cleanup_deletes_only_marked (today tomorrow : PyDatetime)
    (o : CleanupOracle) (streamIds : List String)
    (h : o.dataSourcesList = Except.ok (some streamIds)) :
    (∀ sid ∈ streamIds,
      (Effect.datasetDelete "me" sid (cleanupDatasetId today tomorrow) ∈
          (clean_up_todays_activities today tomorrow o).2 ↔
        (strContains "394921715331" sid && strContains "microcloud" sid) = true)) ∧
    (∀ u sid did, Effect.datasetDelete u sid did ∈
        (clean_up_todays_activities today tomorrow o).2 →
      sid ∈ streamIds ∧
        (strContains "394921715331" sid && strContains "microcloud" sid) = true) := by
  have hm : ∀ sid, nsMarked sid =
      (strContains "394921715331" sid && strContains "microcloud" sid) := fun _ => rfl
  constructor
  · intro sid hsid
    constructor
    · intro hmem
      rw [← hm]
      exact (cleanup_datasetDelete_characterization today tomorrow o streamIds h
        "me" sid _ hmem).2.2.2
    · intro hmark
      rw [mem_cleanup]
      iterate 9 right
      exact ⟨streamIds, h, sid, hsid,
        (datasetDelete_mem_datasetStep o _ sid "me" sid _).mpr
          ⟨rfl, rfl, rfl, by rw [hm]; exact hmark⟩⟩
  · intro u sid did hmem
    have hc := cleanup_datasetDelete_characterization today tomorrow o streamIds h
      u sid did hmem
    exact ⟨hc.2.1, by rw [← hm]; exact hc.2.2.2⟩

/-- Witness for C2: with a listing containing one marked and one unmarked
stream id, the dataset-delete call is issued for the marked one. -/
theorem c2_cleanup_deletes_only_marked_witness :
    Effect.datasetDelete "me" "derived:t:394921715331:microcloud:x"
      (cleanupDatasetId ⟨0, "D0"⟩ ⟨1, "D1"⟩) ∈
      (clean_up_todays_activities ⟨0, "D0"⟩ ⟨1, "D1"⟩
        ⟨Except.ok none, fun _ => none,
         Except.ok (some ["derived:t:394921715331:microcloud:x", "other"]),
         fun _ => none⟩).2 :=
  ((c2_cleanup_deletes_only_marked ⟨0, "D0"⟩ ⟨1, "D1"⟩ _
      ["derived:t:394921715331:microcloud:x", "other"] rfl).1
    "derived:t:394921715331:microcloud:x" (by simp)).mpr (by decide)

/-- C5 counterexample: the claim says a 404 from a deletion call is never
reported as an error for session deletions as well, but the code prints an
error for every failing session deletion, including a 404. -/
theorem c5_counterexample_session_404_logged :
    Effect.print (Msg.errorDeletingSession "s1" 404) ∈
      (clean_up_todays_activities ⟨0, "D0"⟩ ⟨1, "D1"⟩
        ⟨Except.ok (some ["s1"]), fun _ => some 404,
         Except.ok none, fun _ => none⟩).2 := by
  rw [mem_cleanup]
  iterate 6 right
  left
  exact ⟨["s1"], rfl, "s1", by simp,
    (print_errorDeletingSession_mem_sessionStep _ "s1" "s1" 404).mpr ⟨rfl, rfl⟩⟩

/-- C5 (amended): a 404 from a dataset deletion is benign (a dataset 404
error is never printed) while any other dataset-deletion error of a marked
listed source is logged; session-deletion errors, including 404, are always
logged; in both loops processing continues regardless of deletion outcomes:
every listed session still receives its deletion call, every marked listed
source still receives its dataset-deletion call, and cleanup returns True. -/
theorem c5_amended_deletion_errors (today tomorrow : PyDatetime)
    (o : CleanupOracle) (sessionIds streamIds : List String)
    (hs : o.sessionsList = Except.ok (some sessionIds))
    (hd : o.dataSourcesList = Except.ok (some streamIds)) :
    (∀ sid, Effect.print (Msg.errorDeletingDataset sid 404) ∉
        (clean_up_todays_activities today tomorrow o).2) ∧
    (∀ sid ∈ streamIds, nsMarked sid = true → ∀ st, o.datasetDelete sid = some st →
      st ≠ 404 →
      Effect.print (Msg.errorDeletingDataset sid st) ∈
        (clean_up_todays_activities today tomorrow o).2) ∧
    (∀ sid ∈ sessionIds, ∀ st, o.sessionDelete sid = some st →
      Effect.print (Msg.errorDeletingSession sid st) ∈
        (clean_up_todays_activities today tomorrow o).2) ∧
    (∀ sid ∈ sessionIds, Effect.sessionDelete "me" sid ∈
      (clean_up_todays_activities today tomorrow o).2) ∧
    (∀ sid ∈ streamIds, nsMarked sid = true →
      Effect.datasetDelete "me" sid (cleanupDatasetId today tomorrow) ∈
        (clean_up_todays_activities today tomorrow o).2) ∧
    (clean_up_todays_activities today tomorrow o).1 = true := by
  refine ⟨fun sid => errorDeletingDataset404_not_mem_cleanup today tomorrow o sid,
    ?_, ?_, ?_, ?_, rfl⟩
  · intro sid hsid hmark st hst h4
    rw [mem_cleanup]
    iterate 9 right
    exact ⟨streamIds, hd, sid, hsid,
      (print_errorDeletingDataset_mem_datasetStep o _ sid sid st).mpr
        ⟨rfl, hmark, hst, h4⟩⟩
  · intro sid hsid st hst
    rw [mem_cleanup]
    iterate 6 right
    left
    exact ⟨sessionIds, hs, sid, hsid,
      (print_errorDeletingSession_mem_sessionStep o sid sid st).mpr ⟨rfl, hst⟩⟩
  · intro sid hsid
    rw [mem_cleanup]
    iterate 6 right
    left
    exact ⟨sessionIds, hs, sid, hsid, sessionDelete_mem_sessionStep o sid⟩
  · intro sid hsid hmark
    rw [mem_cleanup]
    iterate 9 right
    exact ⟨streamIds, hd, sid, hsid,
      (datasetDelete_mem_datasetStep o _ sid "me" sid _).mpr ⟨rfl, rfl, rfl, hmark⟩⟩

/-- Witness for C5 (amended): a non-404 session-deletion error is logged. -/
theorem c5_amended_deletion_errors_witness :
    Effect.print (Msg.errorDeletingSession "s1" 500) ∈
      (clean_up_todays_activities ⟨0, "E0"⟩ ⟨1, "E1"⟩
        ⟨Except.ok (some ["s1"]), fun _ => some 500,
         Except.ok (some []), fun _ => none⟩).2 :=
  (c5_amended_deletion_errors ⟨0, "E0"⟩ ⟨1, "E1"⟩ _ ["s1"] [] rfl rfl).2.2.1
    "s1" (by simp) 500 rfl

theorem countP_remote_sessionSteps (o : CleanupOracle) (ids : List String) :
    (ids.flatMap (cleanupSessionStep o)).countP Effect.isRemote = ids.length := by
  induction ids with
  | nil => simp
  | cons x xs ih =>
    have hx : (cleanupSessionStep o x).countP Effect.isRemote = 1 := by
      cases h : o.sessionDelete x <;>
        simp [cleanupSessionStep, h, List.countP_cons, Effect.isRemote]
    simp [List.flatMap_cons, List.countP_append, hx, ih]
    omega

theorem countP_remote_datasetSteps (o : CleanupOracle) (did : String)
    (ids : List String) :
    (ids.flatMap (cleanupDatasetStep o did)).countP Effect.isRemote =
      ids.countP (fun x => nsMarked x) := by
  induction ids with
  | nil => simp
  | cons x xs ih =>
    have hx : (cleanupDatasetStep o did x).countP Effect.isRemote =
        (if nsMarked x then 1 else 0) := by
      cases hm : nsMarked x
      · simp [cleanupDatasetStep, hm]
      · cases h : o.datasetDelete x with
        | none => simp [cleanupDatasetStep, hm, h, List.countP_cons, Effect.isRemote]
        | some v =>
            by_cases h4 : v ≠ 404 <;>
              simp [cleanupDatasetStep, hm, h, h4, List.countP_cons, Effect.isRemote]
    cases hm : nsMarked x <;>
      simp [List.flatMap_cons, List.countP_append, List.countP_cons, hx, ih, hm] <;>
      omega

theorem cleanup_countP_remote (today tomorrow : PyDatetime) (o : CleanupOracle)
    (sids dids : List String)
    (hs : o.sessionsList = Except.ok (some sids))
    (hd : o.dataSourcesList = Except.ok (some dids)) :
    (clean_up_todays_activities today tomorrow o).2.countP Effect.isRemote =
      2 + sids.length + dids.countP (fun x => nsMarked x) := by
  simp [clean_up_todays_activities, hs, hd, List.countP_cons, List.countP_append,
    Effect.isRemote, countP_remote_sessionSteps, countP_remote_datasetSteps]
  omega

/-- C1: the data-source identifier is exactly the fixed concatenation of the
type name with the project number and device metadata, and the construction
is deterministic in the data-type name. -/
theorem c1_data_source_id_format :
    (∀ n : String, get_data_source_id n =
      "derived:" ++ n ++ ":394921715331:microcloud:gfit-b100:1000001:" ++ n) ∧
    (∀ n₁ n₂ : String, n₁ = n₂ → get_data_source_id n₁ = get_data_source_id n₂) := by
  constructor
  · intro n
    have h : (":394921715331:microcloud:gfit-b100:1000001:" : String) =
        ":" ++ PROJECT_NUMBER ++ ":microcloud:gfit-b100:1000001:" := rfl
    rw [h]
    simp only [get_data_source_id, String.append_assoc]
  · exact fun n₁ n₂ h => by rw [h]

/-- Witness for C1 at a concrete data-type name. -/
theorem c1_data_source_id_format_witness :
    get_data_source_id "com.google.step_count.delta" =
      "derived:" ++ "com.google.step_count.delta" ++
        ":394921715331:microcloud:gfit-b100:1000001:" ++ "com.google.step_count.delta" ∧
    get_data_source_id "a" = get_data_source_id "a" :=
  ⟨c1_data_source_id_format.1 "com.google.step_count.delta",
   c1_data_source_id_format.2 "a" "a" rfl⟩

/-- C4: `create_data_source` returns the identifier when the existence check
succeeds; on a 404 it submits a creation request whose body carries the
type-specific field schema and returns the identifier when the creation
succeeds; on a non-404 existence error, or a failing creation call, it
returns `None` (and in the non-404 case never attempts a creation). -/
theorem c4_create_data_source_spec (n a : String) (g c : Option Nat) :
    (g = none → (create_data_source n a g c).1 = some (get_data_source_id n)) ∧
    (g = some 404 → c = none →
      (create_data_source n a g c).1 = some (get_data_source_id n) ∧
      Effect.dataSourceCreate "me" (mkDataSource n a) ∈ (create_data_source n a g c).2) ∧
    (∀ e, g = some 404 → c = some e → (create_data_source n a g c).1 = none) ∧
    (∀ s, g = some s → s ≠ 404 → (create_data_source n a g c).1 = none ∧
      ∀ b, Effect.dataSourceCreate "me" b ∉ (create_data_source n a g c).2) ∧
    (mkDataSource n a).dataTypeFields = dataSourceFields n ∧
    dataSourceFields "com.google.activity.segment" =
      [{ name := "activity", format := "integer" }] ∧
    dataSourceFields "com.google.calories.expended" =
      [{ name := "calories", format := "floatPoint" }] ∧
    dataSourceFields "com.google.step_count.delta" =
      [{ name := "steps", format := "integer" }] := by
  refine ⟨?_, ?_, ?_, ?_, rfl, by decide, by decide, by decide⟩
  · rintro rfl; simp [create_data_source]
  · rintro rfl rfl; simp [create_data_source]
  · rintro e rfl rfl; simp [create_data_source]
  · rintro s rfl hs
    constructor
    · simp [create_data_source, hs]
    · intro b; simp [create_data_source, hs]

/-- Witness for C4 at concrete outcomes: a 404 existence check followed by a
successful creation returns the identifier and issues the creation call. -/
theorem c4_create_data_source_spec_witness :
    (create_data_source "com.google.step_count.delta" "GFit B100" (some 404) none).1 =
      some (get_data_source_id "com.google.step_count.delta") ∧
    Effect.dataSourceCreate "me" (mkDataSource "com.google.step_count.delta" "GFit B100") ∈
      (create_data_source "com.google.step_count.delta" "GFit B100" (some 404) none).2 :=
  (c4_create_data_source_spec "com.google.step_count.delta" "GFit B100"
    (some 404) none).2.1 rfl rfl

/-- C7: `get_credentials` returns a stored valid token unchanged without
persisting anything; an invalid stored token that is expired and carries a
refresh token is refreshed in place and the result persisted; in every other
case (no stored token, or an invalid token without an applicable refresh
token) the interactive flow runs and its result is persisted. -/
theorem c7_get_credentials_spec (env : AuthEnv) :
    (∀ c, env.stored = some c → c.valid = true → get_credentials env = (c, [])) ∧
    (∀ c, env.stored = some c → c.valid = false → c.expired = true →
      c.refresh_token ≠ "" →
      get_credentials env = (env.refreshResult c,
        [CredEffect.refresh, CredEffect.saveToken (env.refreshResult c)])) ∧
    ((env.stored = none ∨ ∃ c, env.stored = some c ∧ c.valid = false ∧
        (c.expired = false ∨ c.refresh_token = "")) →
      get_credentials env = (env.flowResult,
        [CredEffect.runFlow, CredEffect.saveToken env.flowResult])) := by
  refine ⟨?_, ?_, ?_⟩
  · rintro c hc hv; simp [get_credentials, hc, hv]
  · rintro c hc hv he hr; simp [get_credentials, hc, hv, he, hr]
  · rintro (hc | ⟨c, hc, hv, hrest⟩)
    · simp [get_credentials, hc]
    · rcases hrest with he | hr
      · simp [get_credentials, hc, hv, he]
      · simp [get_credentials, hc, hv, hr]

/-- Witness for C7: a stored valid token is returned unchanged. -/
theorem c7_get_credentials_spec_witness :
    get_credentials
      { stored := some { token := "t", refresh_token := "r", expired := false }
        refreshResult := fun c => c
        flowResult := { token := "f", refresh_token := "", expired := false } } =
      ({ token := "t", refresh_token := "r", expired := false }, []) :=
  (c7_get_credentials_spec _).1 _ rfl (by decide)

/-- C8: for a nonnegative timestamp, the nanosecond and millisecond values
the script computes are consistent (the nanosecond value, floor-divided by
1000000, is exactly the millisecond value, which also sits in the matching
millisecond window) and each conversion is reversible within one sub-second
unit of truncation. -/
theorem c8_timestamp_conversions (ts : ℚ) (h : 0 ≤ ts) :
    pyInt (ts * 1000000000) / 1000000 = pyInt (ts * 1000) ∧
    pyInt (ts * 1000) * 1000000 ≤ pyInt (ts * 1000000000) ∧
    pyInt (ts * 1000000000) < (pyInt (ts * 1000) + 1) * 1000000 ∧
    (pyInt (ts * 1000000000) : ℚ) / 1000000000 ≤ ts ∧
    ts - 1 / 1000000000 < (pyInt (ts * 1000000000) : ℚ) / 1000000000 ∧
    (pyInt (ts * 1000) : ℚ) / 1000 ≤ ts ∧
    ts - 1 / 1000 < (pyInt (ts * 1000) : ℚ) / 1000 := by
  have h9 : (0 : ℚ) ≤ ts * 1000000000 := by positivity
  have h3 : (0 : ℚ) ≤ ts * 1000 := by positivity
  have e9 : pyInt (ts * 1000000000) = ⌊ts * 1000000000⌋ := if_pos h9
  have e3 : pyInt (ts * 1000) = ⌊ts * 1000⌋ := if_pos h3
  rw [e9, e3]
  have f9l : (⌊ts * 1000000000⌋ : ℚ) ≤ ts * 1000000000 := Int.floor_le _
  have f9u : ts * 1000000000 < ⌊ts * 1000000000⌋ + 1 := Int.lt_floor_add_one _
  have f3l : (⌊ts * 1000⌋ : ℚ) ≤ ts * 1000 := Int.floor_le _
  have f3u : ts * 1000 < ⌊ts * 1000⌋ + 1 := Int.lt_floor_add_one _
  have hlo : ⌊ts * 1000⌋ * 1000000 ≤ ⌊ts * 1000000000⌋ := by
    apply Int.le_floor.mpr
    push_cast
    linarith
  have hhi : ⌊ts * 1000000000⌋ < (⌊ts * 1000⌋ + 1) * 1000000 := by
    have hq : (⌊ts * 1000000000⌋ : ℚ) < ((⌊ts * 1000⌋ + 1) * 1000000 : ℤ) := by
      push_cast
      linarith
    exact_mod_cast hq
  have hediv : ⌊ts * 1000000000⌋ / 1000000 = ⌊ts * 1000⌋ := by omega
  refine ⟨hediv, hlo, hhi, ?_, ?_, ?_, ?_⟩
  · rw [div_le_iff₀ (by norm_num : (0 : ℚ) < 1000000000)]
    exact f9l
  · rw [lt_div_iff₀ (by norm_num : (0 : ℚ) < 1000000000)]
    nlinarith
  · rw [div_le_iff₀ (by norm_num : (0 : ℚ) < 1000)]
    exact f3l
  · rw [lt_div_iff₀ (by norm_num : (0 : ℚ) < 1000)]
    nlinarith

/-- C3 counterexample: with every remote call succeeding except the session
update, the session-creation failure is logged but `log_activity` still
returns `True`, so a failure of an external call does not always cause the
overall operation to return `False`. -/
theorem c3_counterexample_session_failure_returns_true :
    (log_activity 8 0 1800 none none
      { allOk with sessionUpdate := some 500 }).1 = true ∧
    Effect.print (Msg.errorCreatingSession 500) ∈
      (log_activity 8 0 1800 none none { allOk with sessionUpdate := some 500 }).2 := by
  have h1 : (log_activity 8 0 1800 none none
      { allOk with sessionUpdate := some 500 }).1 = true := by
    rw [log_activity_fst]; decide
  exact ⟨h1, (session_effects_mem_log 8 0 1800 none none _ h1).2 500 rfl⟩

/-- C3 (amended): in `log_activity` every failure of an external call is
logged: a failing existence check (other than the 404 absent signal) or
creation call of any attempted data source, a failing dataset patch at any of
the three patch sites, a failing session creation and a failing aggregation
request each leave an error print in the trace.  A failure of the activity
data-source provisioning or of any attempted dataset patch (activity,
calories or steps) causes the overall operation to return `False`, while the
return value does not depend on the session or aggregation outcomes, so the
operation still returns `True` after such a logged failure.  No rollback of
partially-written data occurs: `log_activity` never issues any deletion
call. -/
theorem c3_amended_failures_and_no_rollback (aT : ℤ) (s e : ℚ) (cal : Option ℚ)
    (st : Option ℤ) (o : LogOracle) :
    (∀ v, o.activityGet = some v → v ≠ 404 →
      Effect.print (Msg.errorCheckingDataSource v) ∈ (log_activity aT s e cal st o).2) ∧
    (∀ v, o.activityGet = some 404 → o.activityCreate = some v →
      Effect.print (Msg.errorCreatingDataSource v) ∈ (log_activity aT s e cal st o).2) ∧
    (ratTruthy cal = true → ∀ v, o.caloriesGet = some v → v ≠ 404 →
      Effect.print (Msg.errorCheckingDataSource v) ∈ (log_activity aT s e cal st o).2) ∧
    (ratTruthy cal = true → o.caloriesGet = some 404 → ∀ v, o.caloriesCreate = some v →
      Effect.print (Msg.errorCreatingDataSource v) ∈ (log_activity aT s e cal st o).2) ∧
    (intTruthy st = true → ∀ v, o.stepsGet = some v → v ≠ 404 →
      Effect.print (Msg.errorCheckingDataSource v) ∈ (log_activity aT s e cal st o).2) ∧
    (intTruthy st = true → o.stepsGet = some 404 → ∀ v, o.stepsCreate = some v →
      Effect.print (Msg.errorCreatingDataSource v) ∈ (log_activity aT s e cal st o).2) ∧
    (cdsOk o.activityGet o.activityCreate = false →
      (log_activity aT s e cal st o).1 = false) ∧
    (∀ v, o.patchActivity = some v → (log_activity aT s e cal st o).1 = false) ∧
    (∀ v, cdsOk o.activityGet o.activityCreate = true → o.patchActivity = some v →
      Effect.print (Msg.anErrorOccurred v) ∈ (log_activity aT s e cal st o).2) ∧
    (∀ v, ratTruthy cal = true → cdsOk o.caloriesGet o.caloriesCreate = true →
      o.patchCalories = some v → (log_activity aT s e cal st o).1 = false) ∧
    (∀ v, cdsOk o.activityGet o.activityCreate = true → ratTruthy cal = true →
      cdsOk o.caloriesGet o.caloriesCreate = true → o.patchActivity = none →
      o.patchCalories = some v →
      Effect.print (Msg.anErrorOccurred v) ∈ (log_activity aT s e cal st o).2) ∧
    (∀ v, intTruthy st = true → cdsOk o.stepsGet o.stepsCreate = true →
      o.patchSteps = some v → (log_activity aT s e cal st o).1 = false) ∧
    (∀ v, cdsOk o.activityGet o.activityCreate = true → intTruthy st = true →
      cdsOk o.stepsGet o.stepsCreate = true → o.patchActivity = none →
      ((ratTruthy cal && cdsOk o.caloriesGet o.caloriesCreate) = true →
        o.patchCalories = none) →
      o.patchSteps = some v →
      Effect.print (Msg.anErrorOccurred v) ∈ (log_activity aT s e cal st o).2) ∧
    ((log_activity aT s e cal st o).1 = logActivitySucceeds cal st o) ∧
    ((log_activity aT s e cal st o).1 = true → ∀ v, o.sessionUpdate = some v →
      Effect.print (Msg.errorCreatingSession v) ∈ (log_activity aT s e cal st o).2) ∧
    ((log_activity aT s e cal st o).1 = true → intTruthy st = true →
      ∀ v, o.aggregateCall = some v →
      Effect.print (Msg.errorAggregation v) ∈ (log_activity aT s e cal st o).2) ∧
    (∀ x ∈ (log_activity aT s e cal st o).2, x.isDelete = false) := by
  refine ⟨?_, ?_, ?_, ?_, ?_, ?_,
    fun hA => cdsFail_fst_false aT s e cal st o hA,
    fun v hv => patchActivity_some_fst_false aT s e cal st o v hv,
    fun v hA hv => anError_mem_log aT s e cal st o v hA hv,
    fun v hrc hC hpc => caloriesPatch_some_fst_false aT s e cal st o v hrc hC hpc,
    fun v hA hrc hC hpa hpc =>
      caloriesPatchError_mem_log aT s e cal st o v hA hrc hC hpa hpc,
    fun v hst hS hps => stepsPatch_some_fst_false aT s e cal st o v hst hS hps,
    fun v hA hst hS hpa hcal hps =>
      stepsPatchError_mem_log aT s e cal st o v hA hst hS hpa hcal hps,
    log_activity_fst aT s e cal st o,
    fun h1 v hsu => (session_effects_mem_log aT s e cal st o h1).2 v hsu,
    fun h1 hst v hagg => aggregationError_mem_log aT s e cal st o v h1 hst hagg,
    ?_⟩
  · intro v hv hne
    apply mem_log_of_mem_acds
    rw [hv]
    exact errorChecking_mem_cds _ _ _ v hne
  · intro v hv hv2
    apply mem_log_of_mem_acds
    rw [hv, hv2]
    exact errorCreating_mem_cds _ _ v
  · intro hrc v hv hne
    apply mem_log_of_mem_ccds aT s e cal st o _ hrc
    rw [hv]
    exact errorChecking_mem_cds _ _ _ v hne
  · intro hrc hv v hv2
    apply mem_log_of_mem_ccds aT s e cal st o _ hrc
    rw [hv, hv2]
    exact errorCreating_mem_cds _ _ v
  · intro hst v hv hne
    apply mem_log_of_mem_scds aT s e cal st o _ hst
    rw [hv]
    exact errorChecking_mem_cds _ _ _ v hne
  · intro hst hv v hv2
    apply mem_log_of_mem_scds aT s e cal st o _ hst
    rw [hv, hv2]
    exact errorCreating_mem_cds _ _ v
  · intro x hx
    have h0 := log_countP_delete aT s e cal st o
    have hxd := List.countP_eq_zero.mp h0 x hx
    simpa using hxd

/-- Witness for C3 (amended): a failing activity-source existence check is
logged in the concrete trace. -/
theorem c3_amended_failures_and_no_rollback_witness :
    Effect.print (Msg.errorCheckingDataSource 500) ∈
      (log_activity 8 0 1800 none none
        { allOk with activityGet := some 500 }).2 :=
  (c3_amended_failures_and_no_rollback 8 0 1800 none none _).1 500 rfl
    (by decide)

/-- C6 counterexample: the steps argument is provided (and nonzero), yet no
aggregation request is issued, because the activity dataset patch failed
before the aggregation point was reached. -/
theorem c6_counterexample_steps_given_but_no_aggregation :
    ((log_activity 8 0 1800 none (some 3500)
      { allOk with patchActivity := some 500 }).2.countP Effect.isAggregateCall) = 0 := by
  refine List.countP_eq_zero.mpr ?_
  intro a ha
  cases a <;> try simp [Effect.isAggregateCall]
  rw [agg_mem_log_iff] at ha
  exact absurd ha.2.2.2 (by decide)

/-- C6 (amended): the day-bucketed aggregation request (one-day bucket of
86400000 milliseconds over com.google.step_count.delta, spanning the
activity interval in milliseconds) is issued exactly when the steps argument
is truthy (provided and nonzero) and the whole insertion path succeeded;
any aggregation call carries exactly that body. -/
theorem c6_amended_aggregation_iff (aT : ℤ) (s e : ℚ) (cal : Option ℚ)
    (st : Option ℤ) (o : LogOracle) (u : String) (b : AggregateBody) :
    Effect.aggregate u b ∈ (log_activity aT s e cal st o).2 ↔
      (u = "me" ∧
       b = { aggregateBy := ["com.google.step_count.delta"]
             bucketByTimeDurationMillis := 86400000
             startTimeMillis := pyInt (s * 1000)
             endTimeMillis := pyInt (e * 1000) } ∧
       intTruthy st = true ∧ logActivitySucceeds cal st o = true) :=
  agg_mem_log_iff aT s e cal st o u b

/-- Witness for C6 (amended): with all calls succeeding and steps 3500, the
aggregation request is issued. -/
theorem c6_amended_aggregation_iff_witness :
    Effect.aggregate "me" (aggBody 0 1800) ∈
      (log_activity 8 0 1800 none (some 3500) allOk).2 :=
  (c6_amended_aggregation_iff 8 0 1800 none (some 3500) allOk "me"
    (aggBody 0 1800)).mpr ⟨rfl, rfl, by decide, by decide⟩

/-- C9 counterexample: a remote-call failure that is caught but never
printed.  In the concrete cleanup environment `cleanup404Oracle` the one
marked data source gets its dataset-deletion call, the call fails with a 404
(per the oracle), the loop continues and cleanup returns `True`, yet the
trace contains no error print (nor a success print) for it: its only prints
are the three generic progress messages.  This refutes the claim that every
failure of a remote call is printed to standard output. -/
theorem c9_counterexample_404_dataset_delete_not_printed :
    Effect.datasetDelete "me" "derived:394921715331:microcloud:x"
        (cleanupDatasetId ⟨0, "F0"⟩ ⟨1, "F1"⟩) ∈
      (clean_up_todays_activities ⟨0, "F0"⟩ ⟨1, "F1"⟩ cleanup404Oracle).2 ∧
    Effect.print (Msg.errorDeletingDataset "derived:394921715331:microcloud:x" 404) ∉
      (clean_up_todays_activities ⟨0, "F0"⟩ ⟨1, "F1"⟩ cleanup404Oracle).2 ∧
    Effect.print (Msg.deletedDataset "derived:394921715331:microcloud:x") ∉
      (clean_up_todays_activities ⟨0, "F0"⟩ ⟨1, "F1"⟩ cleanup404Oracle).2 ∧
    (clean_up_todays_activities ⟨0, "F0"⟩ ⟨1, "F1"⟩
      cleanup404Oracle).2.countP Effect.isPrint = 3 ∧
    (clean_up_todays_activities ⟨0, "F0"⟩ ⟨1, "F1"⟩ cleanup404Oracle).1 = true := by
  refine ⟨?_, errorDeletingDataset404_not_mem_cleanup _ _ _ _, ?_, ?_, rfl⟩
  · rw [mem_cleanup]
    iterate 9 right
    exact ⟨["derived:394921715331:microcloud:x"], rfl, _, by simp,
      (datasetDelete_mem_datasetStep _ _ _ _ _ _).mpr ⟨rfl, rfl, rfl, by decide⟩⟩
  · intro hmem
    rw [mem_cleanup] at hmem
    rcases hmem with h1 | h1 | h1 | h1 | ⟨v, hs1, h1⟩ | ⟨hs1, h1⟩ |
      ⟨ids, hids, x, hx, h1⟩ | ⟨v, hs1, h1⟩ | ⟨hs1, h1⟩ | ⟨ids, hids, x, hx, h1⟩
    · simp at h1
    · simp at h1
    · simp at h1
    · simp at h1
    · simp [cleanup404Oracle] at hs1
    · simp at h1
    · simp [cleanup404Oracle] at hids
    · simp [cleanup404Oracle] at hs1
    · simp [cleanup404Oracle] at hs1
    · rw [print_deletedDataset_mem_datasetStep] at h1
      exact absurd h1.2.2 (by simp [cleanup404Oracle])
  · decide

/-- C9 (amended): every HttpError of a remote call is caught, with no
exception escaping and no retries, and each enclosing operation communicates
the outcome only through its return value: `create_data_source` returns
`None` exactly when it fails and performs at most two remote calls;
`log_session` and `request_data_aggregation` return `False` exactly when
their call fails and perform exactly one remote call; `log_activity` returns
`False` exactly when the provisioning-and-patch path fails and performs at
most eleven remote calls; `clean_up_todays_activities` always returns `True`
and performs exactly one remote call per listed item besides its two listing
calls.  Every failure is printed to standard output, with one exception: a
404 from a dataset deletion (treated as benign) is never printed.  In
particular: provisioning failures, all three dataset-patch failures, session
and aggregation failures, listing failures, session-deletion failures and
non-404 dataset-deletion failures each leave their error print in the
trace. -/
theorem c9_failures_caught_and_converted :
    (∀ n a g c, ((create_data_source n a g c).1 = none ↔ cdsOk g c = false) ∧
      (∀ v, g = some v → v ≠ 404 →
        Effect.print (Msg.errorCheckingDataSource v) ∈ (create_data_source n a g c).2) ∧
      (∀ v, g = some 404 → c = some v →
        Effect.print (Msg.errorCreatingDataSource v) ∈ (create_data_source n a g c).2) ∧
      (create_data_source n a g c).2.countP Effect.isRemote ≤ 2) ∧
    (∀ aT (s e : ℚ) out, ((log_session aT s e out).1 = false ↔ out ≠ none) ∧
      (∀ v, out = some v →
        Effect.print (Msg.errorCreatingSession v) ∈ (log_session aT s e out).2) ∧
      (log_session aT s e out).2.countP Effect.isRemote = 1) ∧
    (∀ (s e : ℚ) out, ((request_data_aggregation s e out).1 = false ↔ out ≠ none) ∧
      (∀ v, out = some v →
        Effect.print (Msg.errorAggregation v) ∈ (request_data_aggregation s e out).2) ∧
      (request_data_aggregation s e out).2.countP Effect.isRemote = 1) ∧
    (∀ aT (s e : ℚ) cal st (o : LogOracle),
      ((log_activity aT s e cal st o).1 = logActivitySucceeds cal st o) ∧
      (∀ v, o.patchActivity = some v → (log_activity aT s e cal st o).1 = false) ∧
      (∀ v, cdsOk o.activityGet o.activityCreate = true → o.patchActivity = some v →
        Effect.print (Msg.anErrorOccurred v) ∈ (log_activity aT s e cal st o).2) ∧
      (∀ v, ratTruthy cal = true → cdsOk o.caloriesGet o.caloriesCreate = true →
        o.patchCalories = some v → (log_activity aT s e cal st o).1 = false) ∧
      (∀ v, cdsOk o.activityGet o.activityCreate = true → ratTruthy cal = true →
        cdsOk o.caloriesGet o.caloriesCreate = true → o.patchActivity = none →
        o.patchCalories = some v →
        Effect.print (Msg.anErrorOccurred v) ∈ (log_activity aT s e cal st o).2) ∧
      (∀ v, intTruthy st = true → cdsOk o.stepsGet o.stepsCreate = true →
        o.patchSteps = some v → (log_activity aT s e cal st o).1 = false) ∧
      (∀ v, cdsOk o.activityGet o.activityCreate = true → intTruthy st = true →
        cdsOk o.stepsGet o.stepsCreate = true → o.patchActivity = none →
        ((ratTruthy cal && cdsOk o.caloriesGet o.caloriesCreate) = true →
          o.patchCalories = none) →
        o.patchSteps = some v →
        Effect.print (Msg.anErrorOccurred v) ∈ (log_activity aT s e cal st o).2) ∧
      (log_activity aT s e cal st o).2.countP Effect.isRemote ≤ 11) ∧
    (∀ today tomorrow (o : CleanupOracle),
      (clean_up_todays_activities today tomorrow o).1 = true ∧
      (∀ v, o.sessionsList = Except.error v →
        Effect.print (Msg.errorListingSessions v) ∈
          (clean_up_todays_activities today tomorrow o).2) ∧
      (∀ v, o.dataSourcesList = Except.error v →
        Effect.print (Msg.errorListingDataSources v) ∈
          (clean_up_todays_activities today tomorrow o).2) ∧
      (∀ sids, o.sessionsList = Except.ok (some sids) → ∀ sid ∈ sids,
        ∀ v, o.sessionDelete sid = some v →
        Effect.print (Msg.errorDeletingSession sid v) ∈
          (clean_up_todays_activities today tomorrow o).2) ∧
      (∀ dids, o.dataSourcesList = Except.ok (some dids) → ∀ sid ∈ dids,
        nsMarked sid = true → ∀ v, o.datasetDelete sid = some v → v ≠ 404 →
        Effect.print (Msg.errorDeletingDataset sid v) ∈
          (clean_up_todays_activities today tomorrow o).2) ∧
      (∀ sid, Effect.print (Msg.errorDeletingDataset sid 404) ∉
        (clean_up_todays_activities today tomorrow o).2) ∧
      (∀ sids dids, o.sessionsList = Except.ok (some sids) →
        o.dataSourcesList = Except.ok (some dids) →
        (clean_up_todays_activities today tomorrow o).2.countP Effect.isRemote =
          2 + sids.length + dids.countP (fun x => nsMarked x))) := by
  refine ⟨?_, ?_, ?_, ?_, ?_⟩
  · intro n a g c
    refine ⟨?_, ?_, ?_, cds_countP_remote_le n a g c⟩
    · rw [cds_fst]
      cases h : cdsOk g c <;> simp [h]
    · rintro v rfl hv
      simp [create_data_source, hv]
    · rintro v rfl rfl
      simp [create_data_source]
  · intro aT s e out
    refine ⟨?_, ?_, ls_countP_remote aT s e out⟩
    · rw [ls_fst]; cases out <;> simp
    · rintro v rfl; exact errorCreatingSession_mem_ls aT s e v
  · intro s e out
    refine ⟨?_, ?_, rda_countP_remote s e out⟩
    · rw [rda_fst]; cases out <;> simp
    · rintro v rfl; exact errorAggregation_mem_rda s e v
  · intro aT s e cal st o
    exact ⟨log_activity_fst aT s e cal st o,
      fun v hv => patchActivity_some_fst_false aT s e cal st o v hv,
      fun v hA hv => anError_mem_log aT s e cal st o v hA hv,
      fun v hrc hC hpc => caloriesPatch_some_fst_false aT s e cal st o v hrc hC hpc,
      fun v hA hrc hC hpa hpc =>
        caloriesPatchError_mem_log aT s e cal st o v hA hrc hC hpa hpc,
      fun v hst hS hps => stepsPatch_some_fst_false aT s e cal st o v hst hS hps,
      fun v hA hst hS hpa hcal hps =>
        stepsPatchError_mem_log aT s e cal st o v hA hst hS hpa hcal hps,
      log_countP_remote_le aT s e cal st o⟩
  · intro today tomorrow o
    refine ⟨rfl, ?_, ?_, ?_, ?_,
      fun sid => errorDeletingDataset404_not_mem_cleanup today tomorrow o sid,
      fun sids dids hs hd =>
        cleanup_countP_remote today tomorrow o sids dids hs hd⟩
    · intro v hv
      rw [mem_cleanup]
      iterate 4 right
      left
      exact ⟨v, hv, rfl⟩
    · intro v hv
      rw [mem_cleanup]
      iterate 7 right
      left
      exact ⟨v, hv, rfl⟩
    · intro sids hs2 sid hsid v hv
      rw [mem_cleanup]
      iterate 6 right
      left
      exact ⟨sids, hs2, sid, hsid,
        (print_errorDeletingSession_mem_sessionStep o sid sid v).mpr ⟨rfl, hv⟩⟩
    · intro dids hd2 sid hsid hmark v hv hne
      rw [mem_cleanup]
      iterate 9 right
      exact ⟨dids, hd2, sid, hsid,
        (print_errorDeletingDataset_mem_datasetStep o _ sid sid v).mpr
          ⟨rfl, hmark, hv, hne⟩⟩

/-- Witness for C9: a failing session update yields a `False` return and an
error print. -/
theorem c9_failures_caught_and_converted_witness :
    ((log_session 8 0 1800 (some 502)).1 = false ↔ (some 502 : Option Nat) ≠ none) ∧
    Effect.print (Msg.errorCreatingSession 502) ∈ (log_session 8 0 1800 (some 502)).2 :=
  ⟨(c9_failures_caught_and_converted.2.1 8 0 1800 (some 502)).1,
   (c9_failures_caught_and_converted.2.1 8 0 1800 (some 502)).2.1 502 rfl⟩

/-- C10: passing `0` for the optional calories and steps arguments behaves
exactly like omitting them: the run is identical to the `None`/`None` run,
which provisions no calories or steps data source, patches no calories or
steps dataset and requests no aggregation; and when the activity source is
available and its patch succeeds the activity segment is still patched, the
session is still written and the call returns `True`. -/
theorem c10_zero_optionals (aT : ℤ) (s e : ℚ) (o : LogOracle) :
    log_activity aT s e (some 0) (some 0) o = log_activity aT s e none none o ∧
    (∀ x ∈ (log_activity aT s e (some 0) (some 0) o).2,
      x.mentionsType "com.google.calories.expended" = false ∧
      x.mentionsType "com.google.step_count.delta" = false ∧
      x.isAggregateCall = false) ∧
    (cdsOk o.activityGet o.activityCreate = true → o.patchActivity = none →
      (log_activity aT s e (some 0) (some 0) o).1 = true ∧
      Effect.datasetPatch "me" (get_data_source_id "com.google.activity.segment")
        (datasetId s e)
        (activity_segment aT s e (get_data_source_id "com.google.activity.segment")) ∈
        (log_activity aT s e (some 0) (some 0) o).2 ∧
      Effect.sessionUpdate "me" ("session-" ++ toString (pyInt (s * 1000)))
        (sessionBody aT s e) ∈ (log_activity aT s e (some 0) (some 0) o).2) := by
  have h1 : ratTruthy (some 0) = false := by decide
  have h2 : intTruthy (some 0) = false := by decide
  have hzeq : log_activity aT s e (some 0) (some 0) o =
      log_activity aT s e none none o := by
    simp only [log_activity, h1, h2, show ratTruthy none = false from rfl,
      show intTruthy none = false from rfl, rest_zero]
  refine ⟨hzeq, ?_, ?_⟩
  · rw [hzeq]
    exact log_none_mentions aT s e o
  · intro hA hpa
    have hsucc : logActivitySucceeds (some 0) (some 0) o = true := by
      unfold logActivitySucceeds
      simp [hA, hpa, h1, h2]
    have hfst : (log_activity aT s e (some 0) (some 0) o).1 = true := by
      rw [log_activity_fst]; exact hsucc
    exact ⟨hfst, activityPatch_mem_log aT s e (some 0) (some 0) o hA,
      (session_effects_mem_log aT s e (some 0) (some 0) o hfst).1⟩

/-- Witness for C10: the concrete zero-argument call still returns `True`. -/
theorem c10_zero_optionals_witness :
    (log_activity 8 0 1800 (some 0) (some 0) allOk).1 = true :=
  ((c10_zero_optionals 8 0 1800 allOk).2.2 rfl rfl).1

/-- Witness for C8 at the concrete timestamp 3/2. -/
theorem c8_timestamp_conversions_witness :
    (0 : ℚ) ≤ 3 / 2 ∧
    (pyInt ((3 / 2 : ℚ) * 1000000000) / 1000000 = pyInt ((3 / 2 : ℚ) * 1000) ∧
      pyInt ((3 / 2 : ℚ) * 1000) * 1000000 ≤ pyInt ((3 / 2 : ℚ) * 1000000000) ∧
      pyInt ((3 / 2 : ℚ) * 1000000000) < (pyInt ((3 / 2 : ℚ) * 1000) + 1) * 1000000 ∧
      (pyInt ((3 / 2 : ℚ) * 1000000000) : ℚ) / 1000000000 ≤ 3 / 2 ∧
      (3 / 2 : ℚ) - 1 / 1000000000 < (pyInt ((3 / 2 : ℚ) * 1000000000) : ℚ) / 1000000000 ∧
      (pyInt ((3 / 2 : ℚ) * 1000) : ℚ) / 1000 ≤ 3 / 2 ∧
      (3 / 2 : ℚ) - 1 / 1000 < (pyInt ((3 / 2 : ℚ) * 1000) : ℚ) / 1000) :=
  ⟨by norm_num, c8_timestamp_conversions (3 / 2) (by norm_num)⟩

end GFit
